import Mathlib

set_option maxRecDepth 100000

/-!
Verification of the agent-loop core of the prometheus-ultra server.

The Python sources under `api/` are shallowly embedded: dictionaries become
association lists over a small value type `JValue`, machine behaviour such as
`json.dumps(..., sort_keys=True)` and `hashlib.sha1` is reimplemented
bit-for-bit over `Nat`, and external effects (the LLM backend, the tool
bodies, `Path.resolve`) are threaded as explicit parameters.
-/

/-- Python values appearing as tool arguments and tool results
(`str`, `int`, `bool`, `None`, `list`, `dict`). -/
inductive JValue where
  | jstr (s : String)
  | jint (n : Int)
  | jbool (b : Bool)
  | jnull
  | jlist (l : List JValue)
  | jdict (m : List (String × JValue))

/-- Argument mappings (`Dict[str, Any]`), as insertion-ordered association lists. -/
abbrev Args := List (String × JValue)

/-- Python `dict` membership / indexing: first binding of a key. -/
def lookupArg (args : Args) (k : String) : Option JValue :=
  match args with
  | [] => none
  | (k₀, v) :: rest => if k₀ = k then some v else lookupArg rest k

/-- Python `d[k] = v` on a copy: replace the binding in place, append if new. -/
def setArg : Args → String → JValue → Args
  | [], k, v => [(k, v)]
  | (k₀, v₀) :: rest, k, v =>
      if k₀ = k then (k, v) :: rest else (k₀, v₀) :: setArg rest k v

/-- Python truthiness (`bool(x)`) on the embedded values. -/
def pyTruthy : JValue → Bool
  | .jstr s => s ≠ ""
  | .jint n => n ≠ 0
  | .jbool b => b
  | .jnull => false
  | .jlist l => !l.isEmpty
  | .jdict m => !m.isEmpty

/-- ASCII lower-casing, as `str.lower` acts on the ASCII range. -/
def asciiLowerChar (c : Char) : Char :=
  if 65 ≤ c.toNat ∧ c.toNat ≤ 90 then Char.ofNat (c.toNat + 32) else c

/-- `str.lower()` (ASCII fragment). -/
def pyLower (s : String) : String :=
  String.mk (s.data.map asciiLowerChar)

/-- Whether `haystack` starts with `needle`, on character lists. -/
def charsStartWith : List Char → List Char → Bool
  | [], _ => true
  | _ :: _, [] => false
  | a :: as, b :: bs => a == b && charsStartWith as bs

/-- Contiguous-substring search on character lists. -/
def charsContain : List Char → List Char → Bool
  | h, n =>
    match h with
    | [] => n.isEmpty
    | _ :: rest => charsStartWith n h || charsContain rest n

/-- Python `needle in haystack` on strings: contiguous-substring test. -/
def strContains (haystack needle : String) : Bool :=
  charsContain haystack.data needle.data

/-- Python `haystack.startswith(needle)`. -/
def strStarts (haystack needle : String) : Bool :=
  charsStartWith needle.data haystack.data

/-- Python `str.strip()` (whitespace trim). -/
def pyStrip (s : String) : String := s.trim

/-- Python `repr(x)`. The fuel mirrors the interpreter's recursion limit and is
never exhausted on values of depth below 1000. -/
def pyReprF : Nat → JValue → String
  | _, .jstr s => "\x27" ++ s ++ "\x27"
  | _, .jint n => toString n
  | _, .jbool b => if b then "True" else "False"
  | _, .jnull => "None"
  | fuel + 1, .jlist l =>
      "[" ++ String.intercalate ", " (l.map (pyReprF fuel)) ++ "]"
  | fuel + 1, .jdict m =>
      "\x7b" ++ String.intercalate ", "
        (m.map fun p => "\x27" ++ p.1 ++ "\x27: " ++ pyReprF fuel p.2) ++ "\x7d"
  | 0, _ => ""

/-- Python `str(x)` on the embedded values. -/
def pyStr : JValue → String
  | .jstr s => s
  | .jint n => toString n
  | .jbool b => if b then "True" else "False"
  | .jnull => "None"
  | v => pyReprF 1000 v

/-! ### UTF-8 and SHA-1 (`str.encode()` and `hashlib.sha1`) -/

/-- UTF-8 encoding of one code point. -/
def utf8Char (c : Char) : List Nat :=
  let n := c.toNat
  if n < 0x80 then [n]
  else if n < 0x800 then [0xC0 + n / 64, 0x80 + n % 64]
  else if n < 0x10000 then
    [0xE0 + n / 4096, 0x80 + (n / 64) % 64, 0x80 + n % 64]
  else
    [0xF0 + n / 262144, 0x80 + (n / 4096) % 64, 0x80 + (n / 64) % 64, 0x80 + n % 64]

/-- `s.encode()`: UTF-8 bytes of a string. -/
def utf8Bytes (s : String) : List Nat :=
  (s.data.map utf8Char).flatten

/-- 32-bit truncation. -/
def m32 (n : Nat) : Nat := n % 4294967296

/-- 32-bit left rotation. -/
def rotl32 (s n : Nat) : Nat :=
  m32 ((n <<< s) ||| (n >>> (32 - s)))

/-- SHA-1 padding: append `0x80`, zero-fill to 56 mod 64, then the 64-bit
big-endian bit length. -/
def sha1Pad (msg : List Nat) : List Nat :=
  let len := msg.length
  let padLen := (55 + 64 - len % 64) % 64 + 1
  let bitLen := len * 8
  msg ++ [0x80] ++ List.replicate (padLen - 1) 0 ++
    [bitLen / 72057594037927936 % 256, bitLen / 281474976710656 % 256,
     bitLen / 1099511627776 % 256, bitLen / 4294967296 % 256,
     bitLen / 16777216 % 256, bitLen / 65536 % 256,
     bitLen / 256 % 256, bitLen % 256]

/-- Split a byte list into 32-bit big-endian words. -/
def bytesToWords : List Nat → List Nat
  | b0 :: b1 :: b2 :: b3 :: rest =>
      (b0 * 16777216 + b1 * 65536 + b2 * 256 + b3) :: bytesToWords rest
  | _ => []

/-- Message-schedule extension: grow the 16 block words to 80. -/
def sha1Extend (ws : List Nat) : Nat → List Nat
  | 0 => ws
  | fuel + 1 =>
      let i := ws.length
      let w := rotl32 1 ((ws.getD (i - 3) 0) ^^^ (ws.getD (i - 8) 0) ^^^
        (ws.getD (i - 14) 0) ^^^ (ws.getD (i - 16) 0))
      sha1Extend (ws ++ [w]) fuel

/-- One SHA-1 round. -/
def sha1Round (i w : Nat) : Nat × Nat × Nat × Nat × Nat → Nat × Nat × Nat × Nat × Nat
  | (a, b, c, d, e) =>
      let f :=
        if i < 20 then (b &&& c) ||| ((0xFFFFFFFF ^^^ b) &&& d)
        else if i < 40 then b ^^^ c ^^^ d
        else if i < 60 then (b &&& c) ||| (b &&& d) ||| (c &&& d)
        else b ^^^ c ^^^ d
      let k :=
        if i < 20 then 0x5A827999
        else if i < 40 then 0x6ED9EBA1
        else if i < 60 then 0x8F1BBCDC
        else 0xCA62C1D6
      let temp := m32 (rotl32 5 a + f + e + k + w)
      (temp, a, rotl32 30 b, c, d)

/-- Run the 80 rounds over the schedule. -/
def sha1Rounds : List (Nat × Nat) → Nat × Nat × Nat × Nat × Nat → Nat × Nat × Nat × Nat × Nat
  | [], st => st
  | (i, w) :: rest, st => sha1Rounds rest (sha1Round i w st)

/-- Compress one 64-byte block into the running state. -/
def sha1Compress (block : List Nat) : Nat × Nat × Nat × Nat × Nat → Nat × Nat × Nat × Nat × Nat
  | (h0, h1, h2, h3, h4) =>
      let ws := sha1Extend (bytesToWords block) 64
      let (a, b, c, d, e) :=
        sha1Rounds ((List.range 80).zip ws) (h0, h1, h2, h3, h4)
      (m32 (h0 + a), m32 (h1 + b), m32 (h2 + c), m32 (h3 + d), m32 (h4 + e))

/-- Process the 64-byte blocks of a padded message (fuel bounds the block
count; one unit is spent per block, so `bytes.length` always suffices). -/
def sha1Blocks : Nat → List Nat → Nat × Nat × Nat × Nat × Nat → Nat × Nat × Nat × Nat × Nat
  | _, [], h => h
  | 0, _, h => h
  | fuel + 1, bytes, h => sha1Blocks fuel (bytes.drop 64) (sha1Compress (bytes.take 64) h)

/-- Lower-case hex digit. -/
def hexDigit (n : Nat) : Char :=
  if n < 10 then Char.ofNat (48 + n) else Char.ofNat (87 + n)

/-- 8-hex-digit rendering of a 32-bit word. -/
def hex32 (n : Nat) : String :=
  String.mk ((List.range 8).map fun i => hexDigit (n >>> ((7 - i) * 4) % 16))

/-- `hashlib.sha1(bytes).hexdigest()`. -/
def sha1Hex (msg : List Nat) : String :=
  let padded := sha1Pad msg
  let h :=
    sha1Blocks padded.length padded (0x67452301, 0xEFCDAB89, 0x98BADCFE, 0x10325476, 0xC3D2E1F0)
  hex32 h.1 ++ hex32 h.2.1 ++ hex32 h.2.2.1 ++ hex32 h.2.2.2.1 ++ hex32 h.2.2.2.2

example : sha1Hex (utf8Bytes "abc") = "a9993e364706816aba3e25717850c26c9cd0d89d" := by decide
example : sha1Hex [] = "da39a3ee5e6b4b0d3255bfef95601890afd80709" := by decide

/-! ### `json.dumps(..., sort_keys=True, ensure_ascii=True)` -/

/-- Hex rendering of a code unit for a `\uXXXX` escape. -/
def hex16 (n : Nat) : String :=
  String.mk ((List.range 4).map fun i => hexDigit (n >>> ((3 - i) * 4) % 16))

/-- `ensure_ascii` escaping of one character of a JSON string. -/
def jsonEscapeChar (c : Char) : String :=
  let n := c.toNat
  if c = '"' then "\\\""
  else if c = '\\' then "\\\\"
  else if n = 8 then "\\b"
  else if n = 9 then "\\t"
  else if n = 10 then "\\n"
  else if n = 12 then "\\f"
  else if n = 13 then "\\r"
  else if n < 32 then "\\u" ++ hex16 n
  else if n < 127 then String.mk [c]
  else if n < 65536 then "\\u" ++ hex16 n
  else
    "\\u" ++ hex16 (55296 + (n - 65536) / 1024) ++ "\\u" ++ hex16 (56320 + (n - 65536) % 1024)

/-- A JSON string literal under `ensure_ascii=True`. -/
def jsonQuote (s : String) : String :=
  "\"" ++ String.join (s.data.map jsonEscapeChar) ++ "\""

/-- Lexicographic comparison of character lists by code point, the order
Python's `sorted` uses on strings. -/
def charListLe : List Char → List Char → Bool
  | [], _ => true
  | _ :: _, [] => false
  | a :: as, b :: bs =>
      a.toNat < b.toNat || (a.toNat == b.toNat && charListLe as bs)

/-- Code-point order on strings. -/
def strLeB (s t : String) : Bool := charListLe s.data t.data

/-- Key order used by `sort_keys=True`. -/
def keyLE (p q : String × JValue) : Prop := strLeB p.1 q.1 = true

instance : DecidableRel keyLE := fun p q =>
  inferInstanceAs (Decidable (strLeB p.1 q.1 = true))

/-- `json.dumps` with `sort_keys=True, ensure_ascii=True` and default
separators; the fuel mirrors the interpreter's recursion limit. -/
def jsonRender : Nat → JValue → String
  | _, .jstr s => jsonQuote s
  | _, .jint n => toString n
  | _, .jbool b => if b then "true" else "false"
  | _, .jnull => "null"
  | fuel + 1, .jlist l =>
      "[" ++ String.intercalate ", " (l.map (jsonRender fuel)) ++ "]"
  | fuel + 1, .jdict m =>
      "\x7b" ++ String.intercalate ", "
        ((m.insertionSort keyLE).map fun p => jsonQuote p.1 ++ ": " ++ jsonRender fuel p.2) ++
      "\x7d"
  | 0, _ => ""

/-- Top-level serialisation of an argument dict. -/
def jsonDumpsSorted (args : Args) : String := jsonRender 1000 (.jdict args)

/-! ### `api/utils/state.py` -/

/-- The path-normalisation pass of `canonicalize_args`: string values under
`dir`/`path`/`file` keys are resolved.  `resolve` stands for
`str(Path(value).expanduser().resolve())` (total: the `except` branch keeps
the raw string, and the caller's filesystem fixes the function). -/
def canonicalizeMap (resolve : String → String) (args : Args) : Args :=
  args.map fun p =>
    if (p.1 == "dir" || p.1 == "path" || p.1 == "file") then
      match p.2 with
      | .jstr s => (p.1, .jstr (resolve s))
      | v => (p.1, v)
    else p

/-- `SessionState.canonicalize_args`; `hexdigest()[:8]` is the first 8
characters of the hex digest. -/
def canonicalize_args (resolve : String → String) (action : String) (args : Args) : String :=
  let sortedJson := jsonDumpsSorted (canonicalizeMap resolve args)
  let argsKey := String.mk ((sha1Hex (utf8Bytes sortedJson)).data.take 8)
  action ++ "_" ++ argsKey

/-- One record of `step_ledger` (`LedgerEntry`; the timestamp is dropped,
nothing in the state machine reads it). -/
structure LedgerEntry where
  step : Nat
  action : String
  argsKey : String
  expected : String
  status : String
  obsSignature : String
  errorClass : Option String := none
deriving Repr, DecidableEq

/-- `SessionState.__init__` fields (times dropped; `attempt_set` is a set of
strings, kept as a duplicate-free insertion list). -/
structure SessionState where
  blackboardFacts : List String := []
  lastObs : List String := []
  stepLedger : List LedgerEntry := []
  attemptSet : List String := []
  resultCache : List (String × String) := []
  confidenceTrend : List ℚ := []
  noProgressCount : Nat := 0
  strategySwitches : Nat := 0
  retryBudgets : List (String × Int) := []
  totalSteps : Nat := 0
  maxFacts : Nat := 50
  maxObs : Nat := 8
deriving Repr, DecidableEq

/-- A fresh session, as `StateManager.get_session` builds it. -/
def initSession : SessionState := {}

/-- `SessionState.is_duplicate_attempt`. -/
def is_duplicate_attempt (resolve : String → String) (st : SessionState)
    (action : String) (args : Args) : Bool :=
  canonicalize_args resolve action args ∈ st.attemptSet

/-- `set.add` on the attempt set. -/
def setAdd (s : List String) (x : String) : List String :=
  if x ∈ s then s else s ++ [x]

/-- `set.discard` on the attempt set. -/
def setDiscard (s : List String) (x : String) : List String :=
  s.filter (fun y => y ≠ x)

/-- `SessionState.mark_attempt`. -/
def mark_attempt (resolve : String → String) (st : SessionState)
    (action : String) (args : Args) (success : Bool) : SessionState :=
  let key := canonicalize_args resolve action args
  if success then { st with attemptSet := setDiscard st.attemptSet key }
  else { st with attemptSet := setAdd st.attemptSet key }

/-- `SessionState.add_ledger_entry`. -/
def add_ledger_entry (st : SessionState) (e : LedgerEntry) : SessionState :=
  let st := { st with stepLedger := st.stepLedger ++ [e], totalSteps := st.totalSteps + 1 }
  if e.status = "no_progress" then { st with noProgressCount := st.noProgressCount + 1 }
  else if e.status = "ok" then { st with noProgressCount := 0 }
  else st

/-- Python `l[-n:]`. -/
def clipLast (n : Nat) (l : List α) : List α := l.drop (l.length - n)

/-- `SessionState.add_observation`. -/
def add_observation (st : SessionState) (obs : String) : SessionState :=
  let l := st.lastObs ++ [obs]
  { st with lastObs := if l.length > st.maxObs then clipLast st.maxObs l else l }

/-- `SessionState.add_fact`. -/
def add_fact (st : SessionState) (fact : String) : SessionState :=
  if fact ≠ "" ∧ fact ∉ st.blackboardFacts then
    let l := st.blackboardFacts ++ [fact]
    { st with blackboardFacts := if l.length > st.maxFacts then clipLast st.maxFacts l else l }
  else st

/-- `SessionState.update_confidence`. -/
def update_confidence (st : SessionState) (confidence : ℚ) : SessionState :=
  let l := st.confidenceTrend ++ [confidence]
  { st with confidenceTrend := if l.length > 10 then clipLast 10 l else l }

/-- `SessionState.get_retry_budget` (it also writes the default budget). -/
def get_retry_budget (st : SessionState) (action : String) : SessionState × Int :=
  match (st.retryBudgets.find? (fun p => p.1 == action)) with
  | some p => (st, p.2)
  | none => ({ st with retryBudgets := st.retryBudgets ++ [(action, 1)] }, 1)

/-- `SessionState.decrement_retry_budget`. -/
def decrement_retry_budget (st : SessionState) (action : String) : SessionState :=
  { st with retryBudgets :=
      st.retryBudgets.map fun p => if p.1 == action then (p.1, max 0 (p.2 - 1)) else p }

/-- `SessionState.should_switch_strategy`. -/
def should_switch_strategy (st : SessionState) : Bool :=
  st.noProgressCount ≥ 3

/-- `SessionState.reset_no_progress`. -/
def reset_no_progress (st : SessionState) : SessionState :=
  { st with noProgressCount := 0, strategySwitches := st.strategySwitches + 1 }

/-- `get_list_keys` from `state.py`. -/
def get_list_keys (lst : List JValue) : String :=
  match lst with
  | [] => "mixed"
  | first :: rest =>
    match first with
    | .jdict m0 =>
        let firstKeys := (m0.map (·.1)).dedup
        let common := (rest.take 4).foldl
          (fun acc item =>
            match acc, item with
            | some keys, .jdict m => some (keys.filter (fun k => k ∈ m.map (·.1)))
            | _, _ => none)
          (some firstKeys)
        match common with
        | some keys =>
            if keys.isEmpty then "mixed"
            else String.intercalate "|" (keys.mergeSort (· ≤ ·))
        | none => "mixed"
    | _ => "mixed"

/-- `create_observation_signature` from `state.py`. -/
def create_observation_signature (observation : Option JValue) : String :=
  match observation with
  | none => "null"
  | some (.jnull) => "null"
  | some (.jlist l) =>
      "list[len=" ++ toString l.length ++ ",keys=" ++ get_list_keys l ++ "]"
  | some (.jdict m) =>
      let keys := ((m.map (·.1)).dedup.mergeSort (· ≤ ·)).take 5
      "dict[keys=" ++ String.intercalate "," keys ++ "]"
  | some (.jstr s) =>
      if strContains (pyLower s) "error" || strContains (pyLower s) "failed" then
        "str[len=" ++ toString s.length ++ ",error=true]"
      else "str[len=" ++ toString s.length ++ "]"
  | some (.jint n) => "int[value=" ++ toString n ++ "]"
  | some (.jbool b) => "bool[value=" ++ (if b then "True" else "False") ++ "]"

example :
    canonicalize_args id "count_files" [("limit", .jint 1000)] = "count_files_038562cf" := by
  decide
example :
    canonicalize_args id "count_files" [("limit", .jint 500)] = "count_files_49a4eed5" := by
  decide
example :
    canonicalize_args id "count_files" [("dir", .jstr "/tmp/a"), ("limit", .jint 0)] =
      "count_files_7d775b8b" := by
  decide

/-! ### `api/utils/sandbox.py` -/

/-- Python exceptions that `validate_tool_args` can raise: `SandboxError`
explicitly, `TypeError` from ordering non-number against a number,
`AttributeError` from `.strip()` on a non-string. -/
inductive PyErr where
  | sandboxError (msg : String)
  | typeError (msg : String)
  | attributeError (msg : String)
  | exn (ty : String) (msg : String)
deriving Repr, DecidableEq

/-- The message text of an exception (`str(e)`). -/
def PyErr.msg : PyErr → String
  | .sandboxError m => m
  | .typeError m => m
  | .attributeError m => m
  | .exn _ m => m

/-- The exception's class name (`type(e).__name__`). -/
def PyErr.ty : PyErr → String
  | .sandboxError _ => "SandboxError"
  | .typeError _ => "TypeError"
  | .attributeError _ => "AttributeError"
  | .exn t _ => t

/-- One tool's policy record from the configuration
(`policies['tools'][tool_name]`); `none` fields fall back to the
`dict.get` defaults in the source. -/
structure ToolPolicy where
  enabled : Option Bool := none
  maxLimit : Option Int := none
  maxLength : Option Int := none
  blockedDomains : List String := []
  requireConfirm : Option Bool := none
deriving Repr, DecidableEq

/-- Python `x > n` for an argument value against an `int` policy bound:
`bool` coerces to `0/1`, any non-number raises `TypeError`. -/
def pyGtInt (v : JValue) (n : Int) : Except PyErr Bool :=
  match v with
  | .jint m => .ok (decide (m > n))
  | .jbool b => .ok (decide ((if b then (1 : Int) else 0) > n))
  | _ => .error (.typeError "unorderable against int")

/-- `validate_tool_args` from `api/utils/sandbox.py`. -/
def validate_tool_args (toolName : String) (args : Args) (pol : ToolPolicy) :
    Except PyErr Args :=
  if (pol.enabled.getD true) = false then
    .error (.sandboxError ("Tool " ++ toolName ++ " is disabled"))
  else if toolName = "list_files" ∨ toolName = "count_files" ∨ toolName = "count_dirs" then
    match lookupArg args "limit" with
    | none => .ok args
    | some v =>
        let maxLimit := pol.maxLimit.getD 500
        match pyGtInt v maxLimit with
        | .error e => .error e
        | .ok true => .ok (setArg args "limit" (.jint maxLimit))
        | .ok false => .ok args
  else if toolName = "read_file" then
    match lookupArg args "length" with
    | none => .ok args
    | some v =>
        let maxLength := pol.maxLength.getD 65536
        match pyGtInt v maxLength with
        | .error e => .error e
        | .ok true => .ok (setArg args "length" (.jint maxLength))
        | .ok false => .ok args
  else if toolName = "web_get" then
    match lookupArg args "url" with
    | none => .error (.sandboxError "web_get requires url argument")
    | some (.jstr u) =>
        let url := pyStrip u
        if ¬(strStarts url "http://" ∨ strStarts url "https://") then
          .error (.sandboxError "Invalid URL scheme")
        else
          match pol.blockedDomains.find? (fun d => strContains url d) with
          | some d => .error (.sandboxError ("Blocked domain: " ++ d))
          | none => .ok args
    | some _ => .error (.attributeError "no attribute strip")
  else if toolName = "delete_files" then
    if ¬ pyTruthy ((lookupArg args "confirm").getD (.jbool false)) then
      .error (.sandboxError "delete_files requires confirm=true")
    else if (pol.requireConfirm.getD true) = false then
      .error (.sandboxError "Destructive operations require confirmation")
    else .ok args
  else .ok args

/-! ### `classify_tool_error` and `execute_single_tool` from `api/app.py` -/

/-- `classify_tool_error`. -/
def classify_tool_error (e : PyErr) : String :=
  let msg := pyLower e.msg
  if strContains msg "permission" || strContains msg "access" then "access_denied"
  else if strContains msg "timeout" then "timeout"
  else if strContains msg "connection" || strContains msg "network" then "network_error"
  else if strContains msg "file not found" || strContains msg "no such file" then "file_not_found"
  else if strContains msg "json" || strContains msg "parse" then "json_parse_error"
  else if e.ty = "ValueError" ∨ e.ty = "TypeError" then "validation_error"
  else "execution_error"

/-- The tool registry as `execute_single_tool` consults it: `tools` is the
set of registered callables (`get_tool`), `policies` the per-tool policy
records (`get_policy`, empty record when absent). -/
structure ToolReg where
  tools : List String := []
  policies : List (String × ToolPolicy) := []

/-- `ToolRegistry.get_policy`. -/
def ToolReg.policy (reg : ToolReg) (name : String) : ToolPolicy :=
  ((reg.policies.find? (fun p => p.1 == name)).map (·.2)).getD {}

/-- `ToolRegistry.is_enabled`. -/
def ToolReg.isEnabled (reg : ToolReg) (name : String) : Bool :=
  (reg.policy name).enabled.getD true

/-- What `execute_single_tool` returns, plus what it did on the way:
whether the `exec` event was emitted and whether the tool callable was
actually invoked. -/
structure SingleResult where
  observation : JValue
  errorClass : Option String
  signature : String
  execEmitted : Bool
  invoked : Bool

/-- `execute_single_tool` from `api/app.py`.  `toolOutcome` stands for the
invoked tool callable: its return value, or the exception it raises. -/
def execute_single_tool (resolve : String → String) (reg : ToolReg)
    (st : SessionState) (toolName : String) (args : Args) (destructive : Bool)
    (toolOutcome : Except PyErr JValue) : SingleResult :=
  if toolName ∉ reg.tools then
    ⟨.jstr ("Unknown tool: " ++ toolName), some "unknown_tool", "error", false, false⟩
  else if ¬ reg.isEnabled toolName then
    ⟨.jstr ("Tool " ++ toolName ++ " is disabled"), some "tool_disabled", "error", false, false⟩
  else
    match validate_tool_args toolName args (reg.policy toolName) with
    | .error e =>
        ⟨.jstr ("Argument validation failed: " ++ e.msg), some "validation_error",
          "error", false, false⟩
    | .ok validatedArgs =>
        if toolName = "delete_files" ∧ ¬ destructive then
          ⟨.jstr "Destructive operations require explicit permission",
            some "destructive_blocked", "error", false, false⟩
        else if is_duplicate_attempt resolve st toolName validatedArgs then
          ⟨.jstr "Duplicate attempt blocked", some "duplicate_blocked", "error", false, false⟩
        else
          match toolOutcome with
          | .ok v => ⟨v, none, create_observation_signature (some v), true, true⟩
          | .error e =>
              ⟨.jstr ("Tool execution failed: " ++ e.msg), some (classify_tool_error e),
                "error", true, true⟩

/-! ### `api/utils/parallel.py` -/

/-- A batch task (`BatchTask`). -/
structure BatchTask where
  idx : Nat
  toolName : String
  args : Args
  argsKey : String

/-- The write/destructive tool list hard-coded in `validate_batch_safety`. -/
def writeOperations : List String := ["delete_files", "write_file", "move_file"]

/-- The stringified `path`/`dir`/`file` argument values of one task, in the
order the conflict scan reads them. -/
def taskPathVals (t : BatchTask) : List String :=
  ["path", "dir", "file"].filterMap fun k => (lookupArg t.args k).map pyStr

/-- The path-argument occurrences the conflict scan visits: for each task in
order, the stringified values of its `path`, `dir`, `file` keys. -/
def pathOccurrences (tasks : List BatchTask) : List String :=
  (tasks.map taskPathVals).flatten

/-- The conflict scan of `validate_batch_safety`: walk the occurrences with
the set of already-seen values, reporting every revisited value. -/
def pathConflictErrs (seen : List String) : List String → List String
  | [] => []
  | p :: ps =>
      (if p ∈ seen then ["Path conflict: " ++ p ++ " used by multiple tasks"] else []) ++
      pathConflictErrs (p :: seen) ps

/-- `validate_batch_safety` from `api/utils/parallel.py`. -/
def validate_batch_safety (tasks : List BatchTask) (maxBatchSize : Nat := 10) :
    List String :=
  let keys := tasks.map (·.argsKey)
  (if tasks.length > maxBatchSize then
      ["Batch size " ++ toString tasks.length ++ " exceeds maximum " ++ toString maxBatchSize]
    else []) ++
  (if (tasks.filter (fun t => t.toolName ∈ writeOperations)).length > 1 then
      ["Multiple write operations in batch not allowed"]
    else []) ++
  (if keys.dedup.length ≠ keys.length then ["Duplicate operations detected in batch"]
    else []) ++
  pathConflictErrs [] (pathOccurrences tasks)

/-- `Except.isOk`. -/
def exceptOk : Except PyErr JValue → Bool
  | .ok _ => true
  | .error _ => false

/-- The pre-validation filter of `ParallelExecutor.execute_batch`: tasks
already in the attempt set or naming an unregistered tool are not run. -/
def batch_pre_validate (resolve : String → String) (regTools : List String)
    (st : SessionState) (tasks : List BatchTask) : List BatchTask :=
  tasks.filter fun t =>
    ¬ is_duplicate_attempt resolve st t.toolName t.args ∧ t.toolName ∈ regTools

/-- The attempt-set updates `_execute_single_task` performs: each dispatched
task is marked with its own (raw) args and its success bit. -/
def batch_mark (resolve : String → String) (st : SessionState)
    (validated : List BatchTask) (outcomes : List (Except PyErr JValue)) : SessionState :=
  (validated.zip outcomes).foldl
    (fun s p => mark_attempt resolve s p.1.toolName p.1.args (exceptOk p.2)) st

/-- What `execute_batch` in `api/app.py` does up to the dispatch decision:
build the tasks (`create_batch_tasks`), then either stop on safety errors or
hand the tasks to the coordinator. -/
inductive BatchOutcome where
  | earlyError (errors : List String)
  | dispatched (tasks : List BatchTask)

/-- `create_batch_tasks` (`api/utils/parallel.py`), as `execute_batch` uses
it: one task per argument dict, indexed in order, with its args key. -/
def create_batch_tasks (resolve : String → String) (toolName : String)
    (argsList : List Args) : List BatchTask :=
  (argsList.enum).map fun p =>
    ⟨p.1, toolName, p.2, canonicalize_args resolve toolName p.2⟩

/-- Task construction plus the safety gate of `execute_batch` (`api/app.py`). -/
def app_execute_batch (resolve : String → String) (toolName : String)
    (argsList : List Args) : BatchOutcome :=
  let tasks := create_batch_tasks resolve toolName argsList
  let errs := validate_batch_safety tasks
  if errs.isEmpty then .dispatched tasks else .earlyError errs

/-! ### The agent loop body (`run_enhanced_agent_loop`, `api/app.py`) -/

/-- The named stream events of §4.G that the ordering claim speaks about. -/
inductive EName where
  | plan
  | critic
  | exec
  | obs
  | hyp
  | bb
  | met
deriving Repr, DecidableEq

/-- Python `'s' in lst` for a string against a list: true iff some element
is that very string. -/
def pyListHasStr (l : List JValue) (s : String) : Bool :=
  l.any fun v => match v with
    | .jstr t => t == s
    | _ => false

/-- `validate_tool_args` as it behaves on a *list* args value (`args.copy()`
succeeds; `'limit' in args` is element membership; any raised exception —
`TypeError` from `args['limit']` on a list, `SandboxError` from the missing
url, `AttributeError` from `args.get` — is caught by the caller's inner
`except` and becomes `validation_error`).  The error payload is the message
text interpolated into "Argument validation failed: ...". -/
def validate_list_args (toolName : String) (l : List JValue) (pol : ToolPolicy) :
    Except String Unit :=
  if (pol.enabled.getD true) = false then
    .error ("Tool " ++ toolName ++ " is disabled")
  else if toolName = "list_files" ∨ toolName = "count_files" ∨ toolName = "count_dirs" then
    if pyListHasStr l "limit" then .error "list indices must be integers or slices, not str"
    else .ok ()
  else if toolName = "read_file" then
    if pyListHasStr l "length" then .error "list indices must be integers or slices, not str"
    else .ok ()
  else if toolName = "web_get" then
    if pyListHasStr l "url" then .error "list indices must be integers or slices, not str"
    else .error "web_get requires url argument"
  else if toolName = "delete_files" then
    .error "list object has no attribute get"
  else .ok ()

/-- `execute_single_tool` on a non-dict args value.  For a list the guard
chain runs until `is_duplicate_attempt`, whose `canonicalize_args` call hits
`args.items()` and raises `AttributeError`; the function's outer `except`
(app.py 624-665) classifies it `execution_error`.  For a string/number/None,
`args.copy()` already raises inside `validate_tool_args` and the inner
`except` returns `validation_error`.  In every case nothing is dispatched
and no `exec` event is emitted. -/
def execute_single_tool_nonDict (reg : ToolReg) (toolName : String) (v : JValue)
    (destructive : Bool) : SingleResult :=
  if toolName ∉ reg.tools then
    ⟨.jstr ("Unknown tool: " ++ toolName), some "unknown_tool", "error", false, false⟩
  else if ¬ reg.isEnabled toolName then
    ⟨.jstr ("Tool " ++ toolName ++ " is disabled"), some "tool_disabled", "error",
      false, false⟩
  else
    match v with
    | .jlist l =>
        match validate_list_args toolName l (reg.policy toolName) with
        | .error msg =>
            ⟨.jstr ("Argument validation failed: " ++ msg), some "validation_error",
              "error", false, false⟩
        | .ok _ =>
            if toolName = "delete_files" ∧ ¬ destructive then
              ⟨.jstr "Destructive operations require explicit permission",
                some "destructive_blocked", "error", false, false⟩
            else
              ⟨.jstr "Tool execution failed: list object has no attribute items",
                some "execution_error", "error", false, false⟩
    | _ =>
        ⟨.jstr "Argument validation failed: object has no attribute copy",
          some "validation_error", "error", false, false⟩

/-- The argument lists of a batch plan, provided every element is a dict;
`none` as soon as one is not (then `create_batch_tasks` raises inside
`execute_batch`, which returns a `batch_error` triple with no `exec`
emitted). -/
def allDictElems : List JValue → Option (List Args)
  | [] => some []
  | .jdict m :: rest => (allDictElems rest).map (m :: ·)
  | _ :: _ => none

/-- The plan fields the loop body reads.  `args` is the raw plan value: a
dict for the single-tool path, a list of dicts for the batch path. -/
structure StepPlan where
  nextAction : String
  args : JValue := .jdict []
  expectedObservation : String := ""

/-- Result of one iteration of the `while` loop: the core named events it
emitted in order, the session state it left behind, whether it returned via
the verifier (`final`), and whether it raised (the batch path always does:
`mark_attempt` is called on the list of argument dicts and
`merge_batch_observations` on plain dicts, lines 456-459 and 503). -/
structure StepOutcome where
  events : List EName
  state : SessionState
  finished : Bool
  crashed : Bool

/-- The single path of the loop body for a plan whose `args` is not a dict
(a short list, a string, a number, `null`): `execute_single_tool` returns an
error triple without emitting `exec` (its internal exception handling, see
`execute_single_tool_nonDict`), the loop emits `obs` (app.py 486) and
appends the observation (487), and then `session_state.canonicalize_args(
next_action, args)` at app.py 489 raises `AttributeError` uncaught — the
step ends after `plan, critic, obs` with no ledger entry, no `mark_attempt`
and no `hyp`/`bb`/`met` events, and the loop aborts. -/
def agent_step_nonDict (reg : ToolReg) (st : SessionState) (toolName : String)
    (v : JValue) (destructive : Bool) : StepOutcome :=
  let r := execute_single_tool_nonDict reg toolName v destructive
  { events := [.plan, .critic, .obs],
    state := add_observation st (pyStr r.observation),
    finished := false, crashed := true }

/-- One iteration of the agent loop body, on the raw `args` value of the
plan: a dict takes the single path, a list of more than one element the
batch path, and anything else the crashing non-dict single path.  External
behaviour is passed in: `toolOutcome` for the planned tool's callable,
`batchOutcomes` for the batch workers, `verifyFinish`/`verifyConfidence`
for the verifier, and `switchOutcome` for the `analyze` call of a strategy
switch. -/
def agent_step (resolve : String → String) (reg : ToolReg) (st : SessionState)
    (goal : String) (step : Nat) (plan : StepPlan) (destructive : Bool)
    (toolOutcome : Except PyErr JValue)
    (batchOutcomes : List (Except PyErr JValue))
    (verifyFinish : Bool) (verifyConfidence : ℚ)
    (switchOutcome : Except PyErr JValue) : StepOutcome :=
  match plan.args with
  | .jlist l =>
    if l.length > 1 then
      -- Batch path: `execute_batch` emits one `exec` per task once the safety
      -- gate passes, the workers update the attempt set, and the loop then
      -- raises before `emit_obs_batch` (see `StepOutcome.crashed`).
      match allDictElems l with
      | none =>
          -- A non-dict element makes `create_batch_tasks` raise inside
          -- `execute_batch`; its `except` returns a `batch_error` triple with
          -- no `exec` emitted, and the loop still raises at
          -- `merge_batch_observations` (app.py 456).
          { events := [.plan, .critic], state := st, finished := false, crashed := true }
      | some argsList =>
        match app_execute_batch resolve plan.nextAction argsList with
        | .earlyError _ =>
            { events := [.plan, .critic], state := st, finished := false, crashed := true }
        | .dispatched tasks =>
            let validated := batch_pre_validate resolve reg.tools st tasks
            let st1 := batch_mark resolve st validated batchOutcomes
            { events := [.plan, .critic] ++ List.replicate tasks.length .exec,
              state := st1, finished := false, crashed := true }
    else
      agent_step_nonDict reg st plan.nextAction (.jlist l) destructive
  | .jdict argsDict =>
    let r := execute_single_tool resolve reg st plan.nextAction argsDict destructive toolOutcome
    let st1 := add_observation st (pyStr r.observation)
    let argsKey := canonicalize_args resolve plan.nextAction argsDict
    let entry : LedgerEntry :=
      { step := step, action := plan.nextAction, argsKey := argsKey,
        expected := plan.expectedObservation,
        status := if r.errorClass = none then "ok" else "error",
        obsSignature := r.signature, errorClass := r.errorClass }
    let st2 := add_ledger_entry st1 entry
    let st3 := mark_attempt resolve st2 plan.nextAction argsDict (entry.status == "ok")
    let st4 := if entry.status = "ok" then
        add_fact st3 ("Step " ++ toString step ++ ": " ++ plan.nextAction ++
          " completed successfully")
      else st3
    let st5 := update_confidence st4 verifyConfidence
    let headEvents := [EName.plan, .critic] ++
      (if r.execEmitted then [EName.exec] else []) ++ [EName.obs, .hyp, .bb, .met]
    if verifyFinish then
      { events := headEvents, state := st5, finished := true, crashed := false }
    else if should_switch_strategy st5 then
      let st6 := reset_no_progress st5
      let analyzeObs := (st6.lastObs.getLast? ).getD "No recent observations"
      let analyzeArgs : Args :=
        [("prompt", .jstr ("Given the goal \x27" ++ goal ++
            "\x27, what should be the next strategy?")),
         ("context", .jstr analyzeObs)]
      let r2 := execute_single_tool resolve reg st6 "analyze" analyzeArgs false switchOutcome
      let st7 := add_observation st6 (pyStr r2.observation)
      { events := headEvents ++ (if r2.execEmitted then [EName.exec] else []),
        state := st7, finished := false, crashed := false }
    else
      { events := headEvents, state := st5, finished := false, crashed := false }
  | v => agent_step_nonDict reg st plan.nextAction v destructive

/-! ### The verifier (`EnhancedPlanningAgent.verify`, `api/planning_enhanced.py`) -/

/-- The substring list of `_is_knowledge_question` in `planning_enhanced.py`. -/
def knowledgeIndicatorsPE : List String :=
  ["how many", "what is", "what are", "who is", "when did", "where is",
   "why does", "explain", "define", "what does", "how does",
   "stars in the solar system", "planets in", "capital of"]

/-- `EnhancedPlanningAgent._is_knowledge_question`. -/
def is_knowledge_question_pe (goal : String) : Bool :=
  knowledgeIndicatorsPE.any (fun ind => strContains (pyLower goal) ind)

/-- The success markers of the verifier's fast path. -/
def successMarkers : List String := ["found", "complete", "success", "count"]

/-- A verification record (`finish`, `result`, `confidence`, plus the
`success_level` / `reasoning` strings the enhanced verifier adds). -/
structure VerifyResult where
  finish : Bool
  result : String
  confidence : ℚ
  successLevel : String := ""
  reasoning : String := ""
deriving Repr, DecidableEq

/-- The deterministic prefix of `EnhancedPlanningAgent.verify`: everything it
decides before reaching the LLM fallback call.  `none` means the function
falls through to the LLM.  Observations are session observations, which the
loop stores as strings (`add_observation(str(...))`), so the
`isinstance(last_observation, str)` branch applies whenever any exist. -/
def enhanced_verify_heuristic (goal : String) (recentObservations : List String)
    (maxObs : Nat := 8) : Option VerifyResult :=
  let obsToUse := if recentObservations.isEmpty then [] else clipLast maxObs recentObservations
  let lastObservation := (obsToUse.getLast?).getD "No result available"
  if is_knowledge_question_pe goal then
    if ¬ obsToUse.isEmpty ∧ lastObservation.length > 20 ∧
        ¬ strContains (pyLower lastObservation) "error" then
      some { finish := true, result := lastObservation, confidence := mkRat 95 100,
             successLevel := "complete",
             reasoning := "Knowledge question answered successfully" }
    else
      some { finish := false, result := "Still gathering information", confidence := mkRat 3 10,
             successLevel := "partial",
             reasoning := "Knowledge question not yet fully answered" }
  else if ¬ obsToUse.isEmpty then
    let obsLower := pyLower lastObservation
    if (successMarkers.any (fun ind => strContains obsLower ind)) ∧
        ¬ strContains obsLower "error" ∧ ¬ strContains obsLower "failed" then
      some { finish := true, result := lastObservation, confidence := mkRat 9 10,
             successLevel := "complete",
             reasoning := "Task completed successfully based on observation" }
    else none
  else none

/-! ### Routing (`enhanced_planning_step`, `api/app.py` and `api/simple_planner.py`) -/

/-- The substring list of `is_knowledge_question` in `api/app.py`. -/
def knowledgeIndicatorsApp : List String :=
  ["how many", "what is", "what are", "who is", "when did", "where is",
   "why does", "explain", "define", "what does", "how does",
   "stars in the solar system", "planets in", "capital of",
   "who invented", "when was", "how tall", "how old"]

/-- `is_knowledge_question` from `api/app.py`. -/
def is_knowledge_question (goal : String) : Bool :=
  knowledgeIndicatorsApp.any (fun ind => strContains (pyLower goal) ind)

/-- The patterns of `is_simple_goal` in `api/app.py`. -/
def simplePatterns : List String :=
  ["count files", "list files", "count dirs", "how many", "show me files", "number of"]

/-- `is_simple_goal` from `api/app.py`. -/
def is_simple_goal (goal : String) : Bool :=
  simplePatterns.any (fun p => strContains (pyLower goal) p)

/-- A planner-produced plan record; `confidence` is `none` when the dict has
no such key. -/
structure PyPlan where
  subgoals : List String := []
  successCriteria : String := ""
  nextAction : String := ""
  args : Args := []
  expectedObservation : String := ""
  rationale : String := ""
  confidence : Option ℚ := none
  toolChain : Option (List String) := none
  strategy : Option String := none

/-- `create_simple_plan` from `api/simple_planner.py`. -/
def create_simple_plan (goal : String) : PyPlan :=
  let g := pyLower goal
  if strContains g "count files" then
    let dirPath :=
      if strContains g "desktop" then "~/Desktop"
      else if strContains g "downloads" then "~/Downloads"
      else if strContains g "documents" then "~/Documents"
      else "~"
    { subgoals := ["Identify target directory", "Count files in directory",
        "Return count result"],
      successCriteria := "Return accurate file count",
      nextAction := "count_files",
      args := [("dir", .jstr dirPath), ("limit", .jint 0)],
      expectedObservation := "Dictionary with count key",
      rationale := "Direct file counting using filesystem tools" }
  else if strContains g "list files" then
    let dirPath :=
      if strContains g "desktop" then "~/Desktop"
      else if strContains g "downloads" then "~/Downloads"
      else "~"
    { subgoals := ["Identify target directory", "List files in directory",
        "Return file list"],
      successCriteria := "Return list of files",
      nextAction := "list_files",
      args := [("dir", .jstr dirPath), ("sort", .jstr "name"), ("limit", .jint 50)],
      expectedObservation := "List of file dictionaries",
      rationale := "Direct file listing using filesystem tools" }
  else
    { subgoals := ["Understand the request", "Execute appropriate action",
        "Provide helpful response"],
      successCriteria := "Provide useful information",
      nextAction := "analyze",
      args := [("prompt", .jstr ("How can I help with this request: " ++ goal)),
        ("context", .jstr "No specific context available")],
      expectedObservation := "Analysis response",
      rationale := "General analysis for unclear requests" }

/-- `create_knowledge_plan` from `api/app.py`. -/
def create_knowledge_plan (goal : String) : PyPlan :=
  { strategy := some "knowledge_response",
    subgoals := ["Answer the knowledge question directly"],
    successCriteria := "Provide accurate, helpful information",
    nextAction := "analyze",
    args := [("prompt", .jstr ("Answer this question accurately and completely: " ++ goal)),
      ("context", .jstr "This is a knowledge question that requires a direct factual answer.")],
    expectedObservation := "Direct answer to the knowledge question",
    confidence := some (mkRat 9 10),
    rationale := "Knowledge question detected - using analyze tool for direct response",
    toolChain := some ["analyze"] }

/-- How `enhanced_planning_step` classifies a goal: the knowledge-plan branch,
the simple fast path, or LLM-driven planning (enhanced, then standard, then
the simple/emergency fallbacks). -/
inductive Route where
  | knowledge
  | simpleFast
  | llmPlanning
deriving Repr, DecidableEq

/-- The goal-dependent branch selection of `enhanced_planning_step`
(`api/app.py` lines 172-239).  `create_simple_plan` is total, so its
`try` never falls back. -/
def route_goal (goal : String) : Route :=
  if is_knowledge_question goal then .knowledge
  else if is_simple_goal goal ∧ ((create_simple_plan goal).confidence.getD (mkRat 0 1) > mkRat 8 10) then
    .simpleFast
  else .llmPlanning

/-! ### The intent router of the specification (§4.H), stated from its words
for comparison with `route_goal`. -/

/-- The three intents of §3 of the specification. -/
inductive Intent where
  | conversational
  | direct_action
  | agent_task
deriving Repr, DecidableEq

/-- Action verbs of §4.H rule 1. -/
def actionVerbs : List String :=
  ["count", "list", "find", "delete", "create", "read", "check", "show", "get", "search"]

/-- System targets of §4.H rule 1. -/
def systemTargets : List String :=
  ["file", "folder", "directory", "document", "desktop", "home", "~/", "/users/",
   "my computer", "my documents", "my downloads", "in my", "on my"]

/-- Multi-step markers of §4.H rule 2. -/
def multiStepMarkers : List String :=
  ["and then", "after that", "followed by", "next", "analyze and", "compare",
   "research", "investigate", "compile"]

/-- Knowledge markers of §4.H rule 3. -/
def specKnowledgeMarkers : List String :=
  ["what is", "what are", "who is", "who was", "who are", "when did", "when was",
   "when is", "where is", "where are", "why does", "why is", "why are",
   "how does", "how do", "explain", "define", "describe", "tell me about"]

/-- Whether the goal ends with a question mark. -/
def endsWithQm (s : String) : Bool :=
  match s.data.getLast? with
  | some c => c == '?'
  | none => false

/-- Modelled from the spec: the intent router of §4.H, which has no
counterpart function in the source; `enhanced_planning_step` routes goals
differently (see `route_goal`). -/
def spec_intent_router (goal : String) : Intent :=
  let g := pyLower goal
  let hasTarget := systemTargets.any (fun t => strContains g t)
  if (actionVerbs.any (fun v => strContains g v)) ∧ hasTarget then .direct_action
  else if multiStepMarkers.any (fun m => strContains g m) then .agent_task
  else if (specKnowledgeMarkers.any (fun m => strContains g m)) ∧ ¬ hasTarget then
    .conversational
  else if endsWithQm g ∧ ¬ hasTarget then .conversational
  else .direct_action

/-! ## Claims -/

/-- `add_observation` leaves the progress counter alone. -/
theorem noProg_add_observation (st : SessionState) (o : String) :
    (add_observation st o).noProgressCount = st.noProgressCount := rfl

/-- `reset_no_progress` zeroes the progress counter. -/
theorem noProg_reset (st : SessionState) :
    (reset_no_progress st).noProgressCount = 0 := rfl

/-- An `error` ledger entry, as the loop writes on a failed tool call
(`status = "ok" if error_class is None else "error"`). -/
def errorEntry : LedgerEntry :=
  { step := 1, action := "count_files", argsKey := "count_files_00000000",
    expected := "", status := "error", obsSignature := "error",
    errorClass := some "execution_error" }

/-- C6, counterexample: three consecutive ledger entries whose status is not
`ok` (here `error`, which is what the loop writes on every failed step) leave
`no_progress_count` at 0, so `should_switch_strategy()` stays false — the
counter is only advanced by entries with status `no_progress`. -/
theorem C6_counterexample :
    errorEntry.status ≠ "ok" ∧
    should_switch_strategy
      (add_ledger_entry (add_ledger_entry (add_ledger_entry initSession errorEntry)
        errorEntry) errorEntry) = false ∧
    (add_ledger_entry (add_ledger_entry (add_ledger_entry initSession errorEntry)
        errorEntry) errorEntry).noProgressCount = 0 := by
  refine ⟨by decide, by decide, by decide⟩

/-- C6, amended: `no_progress_count` is reset to 0 by any `ok` ledger entry
and left unchanged by entries that are neither `ok` nor `no_progress`; it is
advanced only by `no_progress` entries, so only 3 consecutive such entries
make `should_switch_strategy()` true; and whenever the loop body continues to
the next plan (neither finished nor crashed), any pending switch has been
performed: the resulting state never still satisfies the switch predicate. -/
theorem C6_theorem :
    (∀ (st : SessionState) (e : LedgerEntry), e.status = "ok" →
      (add_ledger_entry st e).noProgressCount = 0) ∧
    (∀ (st : SessionState) (e : LedgerEntry), e.status ≠ "ok" → e.status ≠ "no_progress" →
      (add_ledger_entry st e).noProgressCount = st.noProgressCount) ∧
    (∀ (st : SessionState) (e : LedgerEntry), e.status = "no_progress" →
      (add_ledger_entry st e).noProgressCount = st.noProgressCount + 1) ∧
    (∀ resolve reg st goal step plan destructive tOut bOuts vFin vConf sOut,
      (agent_step resolve reg st goal step plan destructive tOut bOuts vFin vConf
        sOut).crashed = false →
      (agent_step resolve reg st goal step plan destructive tOut bOuts vFin vConf
        sOut).finished = false →
      should_switch_strategy (agent_step resolve reg st goal step plan destructive tOut
        bOuts vFin vConf sOut).state = false) := by
  refine ⟨?_, ?_, ?_, ?_⟩
  · intro st e h
    simp [add_ledger_entry, h]
  · intro st e h1 h2
    simp [add_ledger_entry, h1, h2]
  · intro st e h
    simp [add_ledger_entry, h]
  · intro resolve reg st goal step plan destructive tOut bOuts vFin vConf sOut
    unfold agent_step
    dsimp only
    repeat' split
    all_goals intro hc hf
    all_goals
      first
      | (revert hc; simp [agent_step_nonDict]; done)
      | (revert hf; simp [agent_step_nonDict]; done)
      | simp_all [should_switch_strategy, noProg_add_observation, noProg_reset]

/-- C8, counterexample: the goal "how many files are in my documents" falls
under no rule of the claimed priority list (no action verb, no multi-step
marker, no claimed knowledge marker, no trailing question mark), so the
claimed router returns the default `direct_action`; the code instead routes
it through `is_knowledge_question` (whose substring list contains
"how many" and ignores system targets) to the knowledge plan, answering from
the model (`analyze`) without touching the filesystem. -/
theorem C8_counterexample :
    spec_intent_router "how many files are in my documents" = Intent.direct_action ∧
    route_goal "how many files are in my documents" = Route.knowledge ∧
    (create_knowledge_plan "how many files are in my documents").nextAction = "analyze" ∧
    Route.knowledge ≠ Route.llmPlanning := by
  exact ⟨by decide, by decide, rfl, by decide⟩

/-- C8, amended: the code has no three-valued intent router.  Goal routing in
`enhanced_planning_step` is a pure function of the goal with exactly two live
outcomes: goals matching `is_knowledge_question` (a fixed substring list that
includes "how many" and "capital of" and never consults system targets) get
the knowledge plan; every other goal goes to LLM planning.  The simple
fast path is dead code, because `create_simple_plan` never sets a
`confidence` key and the gate demands `confidence > 0.8`. -/
theorem C8_theorem (goal : String) :
    (create_simple_plan goal).confidence = none ∧
    route_goal goal =
      (if is_knowledge_question goal then Route.knowledge else Route.llmPlanning) := by
  have hconf : (create_simple_plan goal).confidence = none := by
    unfold create_simple_plan
    dsimp only
    split_ifs <;> rfl
  refine ⟨hconf, ?_⟩
  unfold route_goal
  by_cases hk : is_knowledge_question goal
  · simp [hk]
  · have hq : ¬ ((mkRat 0 1) > mkRat 8 10) := by decide
    simp [hk, hconf, hq]

/-- `setArg` at the written key. -/
theorem lookupArg_setArg_self (args : Args) (k : String) (v : JValue) :
    lookupArg (setArg args k v) k = some v := by
  induction args with
  | nil => simp [setArg, lookupArg]
  | cons p rest ih =>
      cases p with
      | mk k₀ v₀ =>
          by_cases h : k₀ = k
          · simp [setArg, lookupArg, h]
          · simpa [setArg, lookupArg, h] using ih

/-- `setArg` away from the written key. -/
theorem lookupArg_setArg_other (args : Args) (k : String) (v : JValue)
    (k' : String) (h : k' ≠ k) :
    lookupArg (setArg args k v) k' = lookupArg args k' := by
  induction args with
  | nil => simp [setArg, lookupArg, Ne.symm h]
  | cons p rest ih =>
      cases p with
      | mk k₀ v₀ =>
          by_cases h0 : k₀ = k
          · subst h0
            simp [setArg, lookupArg, Ne.symm h]
          · simp only [setArg, if_neg h0]
            by_cases h1 : k₀ = k'
            · simp [lookupArg, h1]
            · simpa [lookupArg, h1] using ih

/-- C10, counterexample: a `limit` argument that is not a number makes the
comparison `args['limit'] > max_limit` raise `TypeError`, not
`SandboxError`; the sandbox validator therefore does not always either raise
`SandboxError` or return a mapping. -/
theorem C10_counterexample :
    validate_tool_args "count_files" [("limit", .jstr "many")] {} =
      .error (.typeError "unorderable against int") ∧
    (PyErr.typeError "unorderable against int").ty = "TypeError" ∧
    (PyErr.typeError "unorderable against int").ty ≠ "SandboxError" :=
  ⟨rfl, rfl, by decide⟩

/-- `pyGtInt` raises only the `TypeError` of an unorderable comparison. -/
theorem pyGtInt_error (v : JValue) (n : Int) (e : PyErr)
    (h : pyGtInt v n = .error e) : e = .typeError "unorderable against int" := by
  cases v <;> simp [pyGtInt] at h <;> first | exact h | exact h.symm

/-- C10, amended: `validate_tool_args` either raises — a `SandboxError` for
its own checks, the `TypeError` of an unorderable comparison when a
`limit`/`length` argument is not number-comparable, or an `AttributeError`
when `url` is not a string — or returns a mapping that agrees with the
caller's at every key except possibly `limit` and `length`, and at those
keys it is either unchanged or replaced by exactly the policy maximum
(`max_limit`, default 500; `max_length`, default 65536), and only when the
given value exceeded that maximum.  The input mapping itself is never
written to: the source copies it (`args.copy()`) and assigns only into the
copy, which the functional embedding renders as returning a fresh mapping. -/
theorem C10_theorem (toolName : String) (args : Args) (pol : ToolPolicy) :
    (∃ e, validate_tool_args toolName args pol = .error e ∧
      ((∃ m, e = .sandboxError m) ∨ e = .typeError "unorderable against int" ∨
       e = .attributeError "no attribute strip")) ∨
    (∃ validated, validate_tool_args toolName args pol = .ok validated ∧
      (∀ k, k ≠ "limit" → k ≠ "length" → lookupArg validated k = lookupArg args k) ∧
      (lookupArg validated "limit" = lookupArg args "limit" ∨
        ∃ v, lookupArg args "limit" = some v ∧
          lookupArg validated "limit" = some (.jint (pol.maxLimit.getD 500)) ∧
          pyGtInt v (pol.maxLimit.getD 500) = .ok true) ∧
      (lookupArg validated "length" = lookupArg args "length" ∨
        ∃ v, lookupArg args "length" = some v ∧
          lookupArg validated "length" = some (.jint (pol.maxLength.getD 65536)) ∧
          pyGtInt v (pol.maxLength.getD 65536) = .ok true)) := by
  have okSame :
      (∃ e, (Except.ok args : Except PyErr Args) = .error e ∧
        ((∃ m, e = .sandboxError m) ∨ e = .typeError "unorderable against int" ∨
         e = .attributeError "no attribute strip")) ∨
      (∃ validated, (Except.ok args : Except PyErr Args) = .ok validated ∧
        (∀ k, k ≠ "limit" → k ≠ "length" → lookupArg validated k = lookupArg args k) ∧
        (lookupArg validated "limit" = lookupArg args "limit" ∨
          ∃ v, lookupArg args "limit" = some v ∧
            lookupArg validated "limit" = some (.jint (pol.maxLimit.getD 500)) ∧
            pyGtInt v (pol.maxLimit.getD 500) = .ok true) ∧
        (lookupArg validated "length" = lookupArg args "length" ∨
          ∃ v, lookupArg args "length" = some v ∧
            lookupArg validated "length" = some (.jint (pol.maxLength.getD 65536)) ∧
            pyGtInt v (pol.maxLength.getD 65536) = .ok true)) :=
    Or.inr ⟨args, rfl, fun _ _ _ => rfl, Or.inl rfl, Or.inl rfl⟩
  unfold validate_tool_args
  dsimp only
  split
  · exact Or.inl ⟨_, rfl, Or.inl ⟨_, rfl⟩⟩
  split
  · -- `list_files` / `count_files` / `count_dirs`: possible `limit` clamp
    cases hlook : lookupArg args "limit" with
    | none => exact Or.inr ⟨args, rfl, fun _ _ _ => rfl, Or.inl hlook, Or.inl rfl⟩
    | some v =>
        dsimp only
        cases hgt : pyGtInt v (pol.maxLimit.getD 500) with
        | error e =>
            exact Or.inl ⟨e, rfl, Or.inr (Or.inl (pyGtInt_error v _ e hgt))⟩
        | ok b =>
            cases b with
            | false =>
                exact Or.inr ⟨args, rfl, fun _ _ _ => rfl, Or.inl hlook, Or.inl rfl⟩
            | true =>
                refine Or.inr ⟨_, rfl, ?_, ?_, ?_⟩
                · intro k hk _
                  exact lookupArg_setArg_other args _ _ k hk
                · exact Or.inr ⟨v, rfl, lookupArg_setArg_self args _ _, hgt⟩
                · exact Or.inl (lookupArg_setArg_other args _ _ "length" (by decide))
  split
  · -- `read_file`: possible `length` clamp
    cases hlook : lookupArg args "length" with
    | none => exact Or.inr ⟨args, rfl, fun _ _ _ => rfl, Or.inl rfl, Or.inl hlook⟩
    | some v =>
        dsimp only
        cases hgt : pyGtInt v (pol.maxLength.getD 65536) with
        | error e =>
            exact Or.inl ⟨e, rfl, Or.inr (Or.inl (pyGtInt_error v _ e hgt))⟩
        | ok b =>
            cases b with
            | false =>
                exact Or.inr ⟨args, rfl, fun _ _ _ => rfl, Or.inl rfl, Or.inl hlook⟩
            | true =>
                refine Or.inr ⟨_, rfl, ?_, ?_, ?_⟩
                · intro k _ hk
                  exact lookupArg_setArg_other args _ _ k hk
                · exact Or.inl (lookupArg_setArg_other args _ _ "limit" (by decide))
                · exact Or.inr ⟨v, rfl, lookupArg_setArg_self args _ _, hgt⟩
  split
  · -- `web_get`: checks only, never rewrites
    cases hlook : lookupArg args "url" with
    | none => exact Or.inl ⟨_, rfl, Or.inl ⟨_, rfl⟩⟩
    | some v =>
        cases v with
        | jstr u =>
            dsimp only
            split
            · exact Or.inl ⟨_, rfl, Or.inl ⟨_, rfl⟩⟩
            · cases hfind : pol.blockedDomains.find? (fun d => strContains (pyStrip u) d) with
              | none => exact okSame
              | some d => exact Or.inl ⟨_, rfl, Or.inl ⟨_, rfl⟩⟩
        | jint n => exact Or.inl ⟨_, rfl, Or.inr (Or.inr rfl)⟩
        | jbool b => exact Or.inl ⟨_, rfl, Or.inr (Or.inr rfl)⟩
        | jnull => exact Or.inl ⟨_, rfl, Or.inr (Or.inr rfl)⟩
        | jlist l => exact Or.inl ⟨_, rfl, Or.inr (Or.inr rfl)⟩
        | jdict m => exact Or.inl ⟨_, rfl, Or.inr (Or.inr rfl)⟩
  split
  · -- `delete_files`: checks only
    split
    · exact Or.inl ⟨_, rfl, Or.inl ⟨_, rfl⟩⟩
    split
    · exact Or.inl ⟨_, rfl, Or.inl ⟨_, rfl⟩⟩
    · exact okSame
  · -- any other tool: untouched
    exact okSame

/-- C10, witness: the theorem at `count_files` with an over-limit `limit`
under the empty policy, whose maximum defaults to 500. -/
theorem C10_witness :
    (∃ e, validate_tool_args "count_files" [("limit", .jint 1000)] {} = .error e ∧
      ((∃ m, e = .sandboxError m) ∨ e = .typeError "unorderable against int" ∨
       e = .attributeError "no attribute strip")) ∨
    (∃ validated, validate_tool_args "count_files" [("limit", .jint 1000)] {} =
        .ok validated ∧
      (∀ k, k ≠ "limit" → k ≠ "length" →
        lookupArg validated k = lookupArg [("limit", .jint 1000)] k) ∧
      (lookupArg validated "limit" = lookupArg [("limit", .jint 1000)] "limit" ∨
        ∃ v, lookupArg [("limit", .jint 1000)] "limit" = some v ∧
          lookupArg validated "limit" =
            some (.jint ((ToolPolicy.maxLimit {}).getD 500)) ∧
          pyGtInt v ((ToolPolicy.maxLimit {}).getD 500) = .ok true) ∧
      (lookupArg validated "length" = lookupArg [("limit", .jint 1000)] "length" ∨
        ∃ v, lookupArg [("limit", .jint 1000)] "length" = some v ∧
          lookupArg validated "length" =
            some (.jint ((ToolPolicy.maxLength {}).getD 65536)) ∧
          pyGtInt v ((ToolPolicy.maxLength {}).getD 65536) = .ok true)) :=
  C10_theorem "count_files" [("limit", .jint 1000)] {}

/-- C3: whenever `delete_files` is called with `confirm` absent or falsy, the
argument sandbox raises (either the confirm error or, if the policy disabled
the tool, the disabled error), and `execute_single_tool` consequently neither
emits `exec` nor invokes the tool callable, whatever the registry, session,
`destructive` flag or would-be tool behaviour. -/
theorem C3_theorem (args : Args) (pol : ToolPolicy)
    (h : pyTruthy ((lookupArg args "confirm").getD (.jbool false)) = false) :
    (∃ e, validate_tool_args "delete_files" args pol = .error e) ∧
    (∀ (resolve : String → String) (reg : ToolReg) (st : SessionState)
      (destructive : Bool) (toolOutcome : Except PyErr JValue),
      (execute_single_tool resolve reg st "delete_files" args destructive
        toolOutcome).invoked = false ∧
      (execute_single_tool resolve reg st "delete_files" args destructive
        toolOutcome).execEmitted = false) := by
  have hval : ∀ pol' : ToolPolicy,
      ∃ e, validate_tool_args "delete_files" args pol' = .error e := by
    intro pol'
    unfold validate_tool_args
    dsimp only
    split
    · exact ⟨_, rfl⟩
    split
    · rename_i hn
      rcases hn with hn | hn | hn <;> simp at hn
    split
    · rename_i hn; simp at hn
    split
    · rename_i hn; simp at hn
    split
    · split
      · exact ⟨_, rfl⟩
      · split
        · exact ⟨_, rfl⟩
        · rename_i hconf _
          rw [h] at hconf
          simp at hconf
    · rename_i hn; simp at hn
  refine ⟨hval pol, ?_⟩
  intro resolve reg st destructive toolOutcome
  unfold execute_single_tool
  split
  · exact ⟨rfl, rfl⟩
  split
  · exact ⟨rfl, rfl⟩
  · obtain ⟨e, he⟩ := hval (reg.policy "delete_files")
    rw [he]
    exact ⟨rfl, rfl⟩

/-- C3, witness: the theorem at a concrete `delete_files` call without
`confirm`. -/
theorem C3_witness :
    (∃ e, validate_tool_args "delete_files" [("dir", .jstr "/tmp")] {} = .error e) ∧
    (∀ (resolve : String → String) (reg : ToolReg) (st : SessionState)
      (destructive : Bool) (toolOutcome : Except PyErr JValue),
      (execute_single_tool resolve reg st "delete_files" [("dir", .jstr "/tmp")]
        destructive toolOutcome).invoked = false ∧
      (execute_single_tool resolve reg st "delete_files" [("dir", .jstr "/tmp")]
        destructive toolOutcome).execEmitted = false) :=
  C3_theorem [("dir", .jstr "/tmp")] {} (by decide)

/-- The mutating `SessionState` operations. -/
inductive SessionOp where
  | observation (obs : String)
  | fact (f : String)
  | confidence (c : ℚ)
  | ledger (e : LedgerEntry)
  | attempt (resolve : String → String) (action : String) (args : Args) (success : Bool)
  | retryGet (action : String)
  | retryDec (action : String)
  | resetProgress

/-- Apply one operation to the session. -/
def applyOp (st : SessionState) : SessionOp → SessionState
  | .observation o => add_observation st o
  | .fact f => add_fact st f
  | .confidence c => update_confidence st c
  | .ledger e => add_ledger_entry st e
  | .attempt resolve a args ok => mark_attempt resolve st a args ok
  | .retryGet a => (get_retry_budget st a).1
  | .retryDec a => decrement_retry_budget st a
  | .resetProgress => reset_no_progress st

/-- The bounds of claim C5 together with the cap fields they depend on. -/
def sessionBounded (st : SessionState) : Prop :=
  st.maxObs = 8 ∧ st.maxFacts = 50 ∧
  st.lastObs.length ≤ 8 ∧ st.blackboardFacts.length ≤ 50 ∧ st.confidenceTrend.length ≤ 10

/-- The clipped suffix has length exactly `n` when the list is longer. -/
theorem clipLast_length (n : Nat) (l : List α) (h : n ≤ l.length) :
    (clipLast n l).length = n := by
  simp [clipLast]
  omega

/-- C5: starting from a fresh session, every sequence of state operations
leaves `last_obs` within 8 entries, the blackboard facts within 50, and the
confidence trend within 10 — each append clips its list back to the cap. -/
theorem C5_theorem (ops : List SessionOp) :
    let st := ops.foldl applyOp initSession
    st.lastObs.length ≤ 8 ∧ st.blackboardFacts.length ≤ 50 ∧
    st.confidenceTrend.length ≤ 10 := by
  have step : ∀ st op, sessionBounded st → sessionBounded (applyOp st op) := by
    intro st op hb
    obtain ⟨hmo, hmf, ho, hf, hc⟩ := hb
    cases op with
    | observation o =>
        refine ⟨hmo, hmf, ?_, hf, hc⟩
        simp only [applyOp, add_observation, hmo]
        split
        · rename_i hlen
          rw [clipLast_length 8 _ (by omega)]
        · rename_i hlen
          omega
    | fact f =>
        refine ⟨?_, ?_, ?_, ?_, ?_⟩ <;>
          simp only [applyOp, add_fact]
        · split <;> simp [hmo]
        · split <;> simp [hmf]
        · split <;> simp [ho]
        · split
          · simp only [hmf]
            split
            · rename_i hlen
              rw [clipLast_length 50 _ (by omega)]
            · rename_i hlen
              omega
          · exact hf
        · split <;> simp [hc]
    | confidence c =>
        refine ⟨hmo, hmf, ho, hf, ?_⟩
        simp only [applyOp, update_confidence]
        split
        · rename_i hlen
          rw [clipLast_length 10 _ (by omega)]
        · rename_i hlen
          omega
    | ledger e =>
        refine ⟨?_, ?_, ?_, ?_, ?_⟩ <;>
          simp only [applyOp, add_ledger_entry] <;>
          (repeat' split) <;> simp [hmo, hmf, ho, hf, hc]
    | attempt resolve a args ok =>
        refine ⟨?_, ?_, ?_, ?_, ?_⟩ <;>
          simp only [applyOp, mark_attempt] <;>
          split <;> simp [hmo, hmf, ho, hf, hc]
    | retryGet a =>
        refine ⟨?_, ?_, ?_, ?_, ?_⟩ <;>
          simp only [applyOp, get_retry_budget] <;>
          split <;> simp [hmo, hmf, ho, hf, hc]
    | retryDec a =>
        exact ⟨hmo, hmf, ho, hf, hc⟩
    | resetProgress =>
        exact ⟨hmo, hmf, ho, hf, hc⟩
  have base : sessionBounded initSession := by
    refine ⟨rfl, rfl, ?_, ?_, ?_⟩ <;> simp [initSession]
  have main : ∀ (l : List SessionOp) (st), sessionBounded st →
      sessionBounded (l.foldl applyOp st) := by
    intro l
    induction l with
    | nil => exact fun st h => h
    | cons op rest ih => exact fun st h => ih _ (step st op h)
  have hb := main ops initSession base
  exact ⟨hb.2.2.1, hb.2.2.2.1, hb.2.2.2.2⟩

/-- The conflict scan reports nothing iff the occurrences are pairwise
distinct and none was seen before. -/
theorem pathConflictErrs_nil_iff (ps : List String) : ∀ seen,
    pathConflictErrs seen ps = [] ↔ ps.Nodup ∧ ∀ p ∈ ps, p ∉ seen := by
  induction ps with
  | nil => intro seen; simp [pathConflictErrs]
  | cons p ps ih =>
      intro seen
      by_cases hmem : p ∈ seen
      · constructor
        · intro h
          simp [pathConflictErrs, hmem] at h
        · rintro ⟨-, hall⟩
          exact absurd hmem (hall p (List.mem_cons_self p ps))
      · have hrec := ih (p :: seen)
        constructor
        · intro h
          have h' : pathConflictErrs (p :: seen) ps = [] := by
            simpa [pathConflictErrs, hmem] using h
          obtain ⟨hnd, hall⟩ := hrec.mp h'
          refine ⟨List.nodup_cons.mpr ⟨fun hp => ?_, hnd⟩, fun q hq => ?_⟩
          · exact (hall p hp) (List.mem_cons_self p seen)
          · rcases List.mem_cons.mp hq with h0 | h0
            · subst h0; exact hmem
            · intro hsq
              exact (hall q h0) (List.mem_cons_of_mem p hsq)
        · rintro ⟨hndc, hall⟩
          obtain ⟨hpn, hnd⟩ := List.nodup_cons.mp hndc
          have h' : pathConflictErrs (p :: seen) ps = [] := by
            refine hrec.mpr ⟨hnd, fun q hq hqmem => ?_⟩
            rcases List.mem_cons.mp hqmem with h0 | h0
            · subst h0; exact hpn hq
            · exact (hall q (List.mem_cons_of_mem p hq)) h0
          simp [pathConflictErrs, hmem, h']

/-- `len(set(l)) == len(l)` iff the list has no duplicates. -/
theorem dedup_length_eq_iff (l : List String) :
    l.dedup.length = l.length ↔ l.Nodup := by
  constructor
  · intro h
    have hsub := List.dedup_sublist l
    have := hsub.eq_of_length h
    rw [← this]
    exact List.nodup_dedup l
  · intro h
    rw [List.dedup_eq_self.mpr h]

/-- C4, counterexample: a batch consisting of one single task whose `path`
and `dir` arguments carry the same value fails safety validation with a
path-conflict error, even though the batch is small, has no write tool, no
repeated args key, and no two tasks sharing anything — the conflict scan
compares occurrences, not tasks. -/
theorem C4_counterexample :
    validate_batch_safety
      [⟨0, "count_files", [("path", .jstr "/tmp/a"), ("dir", .jstr "/tmp/a")], "k0"⟩] ≠ [] ∧
    ([⟨0, "count_files", [("path", .jstr "/tmp/a"), ("dir", .jstr "/tmp/a")], "k0"⟩] :
      List BatchTask).length ≤ 10 ∧
    (([⟨0, "count_files", [("path", .jstr "/tmp/a"), ("dir", .jstr "/tmp/a")], "k0"⟩] :
      List BatchTask).filter (fun t => t.toolName ∈ writeOperations)).length ≤ 1 ∧
    (([⟨0, "count_files", [("path", .jstr "/tmp/a"), ("dir", .jstr "/tmp/a")], "k0"⟩] :
      List BatchTask).map (·.argsKey)).Nodup ∧
    (∀ t₁ t₂ : BatchTask,
      t₁ ∈ ([⟨0, "count_files", [("path", .jstr "/tmp/a"), ("dir", .jstr "/tmp/a")], "k0"⟩] :
        List BatchTask) →
      t₂ ∈ ([⟨0, "count_files", [("path", .jstr "/tmp/a"), ("dir", .jstr "/tmp/a")], "k0"⟩] :
        List BatchTask) →
      t₁ = t₂) := by
  refine ⟨by decide, by decide, by decide, by decide, ?_⟩
  intro t₁ t₂ h₁ h₂
  rw [List.mem_singleton.mp h₁, List.mem_singleton.mp h₂]

/-- C4, amended: pre-validation returns an empty error list exactly when the
batch has at most 10 tasks, at most one write-tool task, pairwise-distinct
args keys, and pairwise-distinct path-argument occurrences — where the
occurrences run over every `path`/`dir`/`file` value of every task, so a
single task repeating one value across two of those keys also fails; and
whenever validation fails for the tasks built from a plan's argument list,
`execute_batch` stops before dispatching anything. -/
theorem C4_theorem :
    (∀ tasks : List BatchTask,
      validate_batch_safety tasks = [] ↔
        tasks.length ≤ 10 ∧
        (tasks.filter (fun t => t.toolName ∈ writeOperations)).length ≤ 1 ∧
        (tasks.map (·.argsKey)).Nodup ∧
        (pathOccurrences tasks).Nodup) ∧
    (∀ (resolve : String → String) (toolName : String) (argsList : List Args),
      validate_batch_safety (create_batch_tasks resolve toolName argsList) ≠ [] →
      app_execute_batch resolve toolName argsList =
        .earlyError (validate_batch_safety (create_batch_tasks resolve toolName argsList))) := by
  constructor
  · intro tasks
    unfold validate_batch_safety
    dsimp only
    rw [List.append_eq_nil, List.append_eq_nil, List.append_eq_nil]
    rw [pathConflictErrs_nil_iff]
    constructor
    · rintro ⟨⟨⟨h1, h2⟩, h3⟩, h4, -⟩
      refine ⟨?_, ?_, ?_, h4⟩
      · by_contra hlen
        rw [if_pos (by omega)] at h1
        cases h1
      · by_contra hw
        rw [if_pos (by omega)] at h2
        cases h2
      · by_contra hnd
        rw [if_pos ?_] at h3
        · cases h3
        · intro heq
          exact hnd ((dedup_length_eq_iff _).mp heq)
    · rintro ⟨h1, h2, h3, h4⟩
      refine ⟨⟨⟨?_, ?_⟩, ?_⟩, h4, by simp⟩
      · rw [if_neg (by omega)]
      · rw [if_neg (by omega)]
      · rw [if_neg ?_]
        simp only [ne_eq, Decidable.not_not]
        exact (dedup_length_eq_iff _).mpr h3
  · intro resolve toolName argsList h
    unfold app_execute_batch
    dsimp only
    rw [if_neg ?_]
    intro hE
    exact h (List.isEmpty_iff.mp hE)

/-- C4, witness: the dispatch gate at a concrete conflicting batch. -/
theorem C4_witness :
    app_execute_batch id "count_files" [[("path", .jstr "/a"), ("dir", .jstr "/a")]] =
      .earlyError (validate_batch_safety
        (create_batch_tasks id "count_files" [[("path", .jstr "/a"), ("dir", .jstr "/a")]])) :=
  C4_theorem.2 id "count_files" [[("path", .jstr "/a"), ("dir", .jstr "/a")]] (by decide)

/-- Adding to a Python set makes the element a member. -/
theorem mem_setAdd_self (s : List String) (x : String) : x ∈ setAdd s x := by
  unfold setAdd
  split
  · assumption
  · simp

/-- C2, counterexample: with `count_files` policy-clamped at 500, the args
`{limit: 1000}` have their key in `attempt_set`, yet the tool is dispatched —
the duplicate check hashes the clamped `{limit: 500}`, whose key differs.
Consequently the same canonical args are invoked twice although the first
attempt failed and was marked. -/
theorem C2_counterexample :
    (canonicalize_args id "count_files" [("limit", .jint 1000)] ∈
      (SessionState.mk [] [] [] [canonicalize_args id "count_files" [("limit", .jint 1000)]]
        [] [] 0 0 [] 0 50 8).attemptSet ∧
     (execute_single_tool id ⟨["count_files"], []⟩
        (SessionState.mk [] [] [] [canonicalize_args id "count_files" [("limit", .jint 1000)]]
          [] [] 0 0 [] 0 50 8)
        "count_files" [("limit", .jint 1000)] false
        (.error (.exn "OSError" "boom"))).invoked = true) ∧
    ((execute_single_tool id ⟨["count_files"], []⟩ initSession
        "count_files" [("limit", .jint 1000)] false
        (.error (.exn "OSError" "boom"))).invoked = true ∧
     (execute_single_tool id ⟨["count_files"], []⟩
        (mark_attempt id initSession "count_files" [("limit", .jint 1000)] false)
        "count_files" [("limit", .jint 1000)] false
        (.ok (.jdict [("count", .jint 3)]))).invoked = true ∧
     (execute_single_tool id ⟨["count_files"], []⟩
        (mark_attempt id initSession "count_files" [("limit", .jint 1000)] false)
        "count_files" [("limit", .jint 1000)] false
        (.ok (.jdict [("count", .jint 3)]))).errorClass ≠ some "duplicate_blocked") := by
  refine ⟨⟨by decide, by decide⟩, by decide, by decide, by decide⟩

/-- C2, amended: the duplicate guard is keyed on the *validated* args: when
the tool is registered, enabled, its args validate to `validated`, the
destructive gate does not fire, and `canonicalize_args(tool, validated)` is
in `attempt_set`, the call short-circuits with `error_class
duplicate_blocked` (the ledger then records status `error`), emitting no
`exec` and invoking nothing.  And since `mark_attempt` records the key of
the *raw* args, the guard is only guaranteed to stop a retry when validation
returns the args unchanged: in that case a failed then retried call is never
dispatched a second time. -/
theorem C2_theorem :
    (∀ (resolve : String → String) (reg : ToolReg) (st : SessionState)
      (toolName : String) (args validated : Args) (destructive : Bool)
      (outcome : Except PyErr JValue),
      toolName ∈ reg.tools →
      reg.isEnabled toolName = true →
      validate_tool_args toolName args (reg.policy toolName) = .ok validated →
      ¬(toolName = "delete_files" ∧ ¬ destructive) →
      canonicalize_args resolve toolName validated ∈ st.attemptSet →
      execute_single_tool resolve reg st toolName args destructive outcome =
        ⟨.jstr "Duplicate attempt blocked", some "duplicate_blocked", "error",
          false, false⟩) ∧
    (∀ (resolve : String → String) (reg : ToolReg) (st : SessionState)
      (toolName : String) (args : Args) (destructive : Bool)
      (outcome : Except PyErr JValue),
      validate_tool_args toolName args (reg.policy toolName) = .ok args →
      (execute_single_tool resolve reg
        (mark_attempt resolve st toolName args false)
        toolName args destructive outcome).invoked = false) := by
  constructor
  · intro resolve reg st toolName args validated destructive outcome
    intro htool hen hval hdes hdup
    unfold execute_single_tool
    rw [if_neg (by simpa using htool)]
    rw [if_neg (by simp [hen])]
    rw [hval]
    dsimp only
    rw [if_neg hdes]
    have hd : is_duplicate_attempt resolve st toolName validated = true :=
      decide_eq_true hdup
    rw [if_pos hd]
  · intro resolve reg st toolName args destructive outcome hval
    unfold execute_single_tool
    split
    · rfl
    split
    · rfl
    rw [hval]
    dsimp only
    split
    · rfl
    · have hd : is_duplicate_attempt resolve
          (mark_attempt resolve st toolName args false) toolName args = true :=
        decide_eq_true (mem_setAdd_self _ _)
      rw [if_pos hd]

/-- C2, witness: the blocked branch at a concrete registered tool whose args
validate unchanged and whose key is already in the attempt set. -/
theorem C2_witness :
    execute_single_tool id ⟨["count_files"], []⟩
      (SessionState.mk [] [] [] [canonicalize_args id "count_files" [("limit", .jint 5)]]
        [] [] 0 0 [] 0 50 8)
      "count_files" [("limit", .jint 5)] false (.ok (.jint 0)) =
      ⟨.jstr "Duplicate attempt blocked", some "duplicate_blocked", "error",
        false, false⟩ :=
  C2_theorem.1 id ⟨["count_files"], []⟩ _ "count_files"
    [("limit", .jint 5)] [("limit", .jint 5)] false (.ok (.jint 0))
    (by decide) (by decide) rfl (by simp) (by decide)

/-- `l[-n:]` has the same last element as `l` (for `n > 0`). -/
theorem getLast?_clipLast (n : Nat) (l : List α) (hn : 0 < n) (hl : l ≠ []) :
    (clipLast n l).getLast? = l.getLast? := by
  unfold clipLast
  by_cases h : l.length ≤ n
  · rw [Nat.sub_eq_zero_of_le h, List.drop_zero]
  · have hdrop : l.drop (l.length - n) ≠ [] := by
      intro he
      have hlen := congrArg List.length he
      simp only [List.length_drop, List.length_nil] at hlen
      omega
    conv_rhs => rw [← List.take_append_drop (l.length - n) l]
    rw [List.getLast?_append_of_ne_nil _ hdrop]

/-- C7, counterexample: a verification call whose last observation is
non-empty, free of "error"/"failed" and carrying the marker "complete", but
whose goal matches the knowledge-question list: the fast path returns
confidence 0.95 (with the answer), not 0.9 — the claimed behaviour only
holds away from the knowledge branch. -/
theorem C7_counterexample :
    ("The capital of France is Paris, lookup complete" ≠ "" ∧
     strContains (pyLower "The capital of France is Paris, lookup complete")
       "complete" = true ∧
     strContains (pyLower "The capital of France is Paris, lookup complete")
       "error" = false ∧
     strContains (pyLower "The capital of France is Paris, lookup complete")
       "failed" = false) ∧
    enhanced_verify_heuristic "what is the capital of France"
      ["The capital of France is Paris, lookup complete"] =
      some { finish := true,
             result := "The capital of France is Paris, lookup complete",
             confidence := mkRat 95 100, successLevel := "complete",
             reasoning := "Knowledge question answered successfully" } ∧
    mkRat 95 100 ≠ mkRat 9 10 := by
  refine ⟨⟨by decide, by decide, by decide, by decide⟩, by decide, by decide⟩

/-- C7, amended: for goals that are *not* classified as knowledge questions,
the fast heuristic behaves as claimed: a last observation containing one of
`found`/`complete`/`success`/`count` and mentioning neither "error" nor
"failed" makes the verifier finish with that observation as result and
confidence 0.9, before any LLM call. -/
theorem C7_theorem (goal : String) (obs : List String) (o : String)
    (hk : is_knowledge_question_pe goal = false)
    (hlast : obs.getLast? = some o)
    (hmark : successMarkers.any (fun ind => strContains (pyLower o) ind) = true)
    (herr : strContains (pyLower o) "error" = false)
    (hfail : strContains (pyLower o) "failed" = false) :
    enhanced_verify_heuristic goal obs =
      some { finish := true, result := o, confidence := mkRat 9 10,
             successLevel := "complete",
             reasoning := "Task completed successfully based on observation" } := by
  have hne : obs ≠ [] := by
    intro h
    rw [h] at hlast
    simp at hlast
  have hie : obs.isEmpty = false := by
    cases obs
    · exact absurd rfl hne
    · rfl
  have hcl : (clipLast 8 obs).getLast? = some o := by
    rw [getLast?_clipLast 8 obs (by omega) hne, hlast]
  have hclne : (clipLast 8 obs).isEmpty = false := by
    cases hcc : clipLast 8 obs
    · rw [hcc] at hcl; simp at hcl
    · rfl
  unfold enhanced_verify_heuristic
  simp [hie, hk, hcl, hclne, hmark, herr, hfail]

/-- C7, witness: the theorem at a non-knowledge goal with a marker-bearing
observation. -/
theorem C7_witness :
    enhanced_verify_heuristic "check the nightly backup"
      ["backup finished with success"] =
      some { finish := true, result := "backup finished with success",
             confidence := mkRat 9 10, successLevel := "complete",
             reasoning := "Task completed successfully based on observation" } :=
  C7_theorem "check the nightly backup" ["backup finished with success"]
    "backup finished with success" (by decide) rfl (by decide) (by decide) (by decide)

/-- C1, counterexample: a step whose planned tool is not registered.
`execute_single_tool` returns before `emit_exec`, yet the loop still emits
`obs` — the step's named events are `plan, critic, obs, hyp, bb, met`, and
the emitted `obs` event is preceded by no `exec` event of its step. -/
theorem C1_counterexample :
    (agent_step id ⟨[], []⟩ initSession "g" 1 ⟨"frobnicate", .jdict [], ""⟩ false
      (.error (.exn "RuntimeError" "x")) [] false (mkRat 1 2) (.ok .jnull)).events =
      [.plan, .critic, .obs, .hyp, .bb, .met] ∧
    EName.obs ∈ (agent_step id ⟨[], []⟩ initSession "g" 1 ⟨"frobnicate", .jdict [], ""⟩
      false (.error (.exn "RuntimeError" "x")) [] false (mkRat 1 2) (.ok .jnull)).events ∧
    EName.exec ∉ (agent_step id ⟨[], []⟩ initSession "g" 1 ⟨"frobnicate", .jdict [], ""⟩
      false (.error (.exn "RuntimeError" "x")) [] false (mkRat 1 2) (.ok .jnull)).events := by
  refine ⟨by decide, by decide, by decide⟩

/-- The step-shape disjunction of the amended C1 claim: the full single-path
order with optional execs, a crashed batch prefix `plan, critic, exec*`, or
the crashed non-dict single prefix `plan, critic, obs`. -/
def stepShapeProp (res : StepOutcome) : Prop :=
  ∃ k₁ k₂, k₁ ≤ 1 ∧ k₂ ≤ 1 ∧
    (res.events =
      [EName.plan, .critic] ++ List.replicate k₁ .exec ++ [.obs, .hyp, .bb, .met] ++
        List.replicate k₂ .exec ∧
      res.crashed = false ∨
     (∃ k, res.events = [EName.plan, .critic] ++ List.replicate k .exec ∧
      res.crashed = true) ∨
     (res.events = [EName.plan, .critic, .obs] ∧ res.crashed = true))

/-- A non-crashed outcome with no trailing exec has the claimed shape. -/
theorem stepShape_head (b : Bool) (res : StepOutcome)
    (hev : res.events = [EName.plan, EName.critic] ++
      (if b = true then [EName.exec] else []) ++
      [EName.obs, EName.hyp, EName.bb, EName.met])
    (hcr : res.crashed = false) : stepShapeProp res := by
  cases b
  · exact ⟨0, 0, by omega, by omega, Or.inl ⟨by simp [hev], hcr⟩⟩
  · exact ⟨1, 0, by omega, by omega, Or.inl ⟨by simp [hev], hcr⟩⟩

/-- A non-crashed outcome with an optional trailing exec has the claimed
shape. -/
theorem stepShape_full (b c : Bool) (res : StepOutcome)
    (hev : res.events = ([EName.plan, EName.critic] ++
      (if b = true then [EName.exec] else []) ++
      [EName.obs, EName.hyp, EName.bb, EName.met]) ++
      (if c = true then [EName.exec] else []))
    (hcr : res.crashed = false) : stepShapeProp res := by
  cases b <;> cases c
  · exact ⟨0, 0, by omega, by omega, Or.inl ⟨by simp [hev], hcr⟩⟩
  · exact ⟨0, 1, by omega, by omega, Or.inl ⟨by simp [hev], hcr⟩⟩
  · exact ⟨1, 0, by omega, by omega, Or.inl ⟨by simp [hev], hcr⟩⟩
  · exact ⟨1, 1, by omega, by omega, Or.inl ⟨by simp [hev], hcr⟩⟩

/-- A crashed outcome that emitted `plan, critic` and some execs has the
claimed shape. -/
theorem stepShape_crash (k : Nat) (res : StepOutcome)
    (hev : res.events = [EName.plan, EName.critic] ++ List.replicate k EName.exec)
    (hcr : res.crashed = true) : stepShapeProp res :=
  ⟨0, 0, by omega, by omega, Or.inr (Or.inl ⟨k, hev, hcr⟩)⟩

/-- A crashed outcome that emitted `plan, critic, obs` (the non-dict single
path) has the claimed shape. -/
theorem stepShape_crashObs (res : StepOutcome)
    (hev : res.events = [EName.plan, EName.critic, EName.obs])
    (hcr : res.crashed = true) : stepShapeProp res :=
  ⟨0, 0, by omega, by omega, Or.inr (Or.inr ⟨hev, hcr⟩)⟩

/-- `stepShapeProp` distributes over a branch. -/
theorem stepShape_branch (cond : Prop) [Decidable cond] (res₂ res₃ : StepOutcome)
    (h₂ : stepShapeProp res₂) (h₃ : stepShapeProp res₃) :
    stepShapeProp (if cond then res₂ else res₃) := by
  split <;> assumption

/-- C1, amended: per loop iteration the core named events come in a fixed
order, but `exec` is optional on the single-tool path (absent whenever the
guard chain short-circuits before dispatch, while `obs` through `met` are
still emitted), an extra `exec` may trail after `met` when a strategy switch
dispatches its `analyze` call, on the batch path the step emits `plan,
critic` and one `exec` per task and then crashes before `obs` (the loop then
ends in an error `final`), and a single-path plan whose `args` is not a dict
emits `plan, critic, obs` and then crashes at the loop body's
`canonicalize_args` call.  So the stream is `plan, critic, exec?, obs, hyp,
bb, met, exec?`, a crashed `plan, critic, exec*` prefix, or a crashed
`plan, critic, obs` prefix — not the claimed unconditional seven-event
sequence. -/
theorem C1_theorem (resolve : String → String) (reg : ToolReg) (st : SessionState)
    (goal : String) (step : Nat) (plan : StepPlan) (destructive : Bool)
    (tOut : Except PyErr JValue) (bOuts : List (Except PyErr JValue))
    (vFin : Bool) (vConf : ℚ) (sOut : Except PyErr JValue) :
    stepShapeProp (agent_step resolve reg st goal step plan destructive tOut bOuts
      vFin vConf sOut) := by
  obtain ⟨nextAction, pargs, expectedObs⟩ := plan
  cases pargs
  case jdict argsDict =>
    unfold agent_step
    dsimp only
    exact stepShape_branch _ _ _ (stepShape_head _ _ rfl rfl)
      (stepShape_branch _ _ _ (stepShape_full _ _ _ rfl rfl)
        (stepShape_head _ _ rfl rfl))
  case jlist l =>
    unfold agent_step
    dsimp only
    by_cases h : l.length > 1
    · rw [if_pos h]
      cases hd : allDictElems l with
      | none => exact stepShape_crash 0 _ rfl rfl
      | some argsList =>
          dsimp only
          cases hb : app_execute_batch resolve nextAction argsList with
          | earlyError errs => exact stepShape_crash 0 _ rfl rfl
          | dispatched tasks => exact stepShape_crash tasks.length _ rfl rfl
    · rw [if_neg h]
      exact stepShape_crashObs _ rfl rfl
  all_goals exact stepShape_crashObs _ rfl rfl

/-- `charListLe` is total. -/
theorem charListLe_total : ∀ a b : List Char, charListLe a b = true ∨ charListLe b a = true
  | [], _ => Or.inl rfl
  | _ :: _, [] => Or.inr rfl
  | x :: xs, y :: ys => by
      rcases Nat.lt_trichotomy x.toNat y.toNat with h | h | h
      · left; simp [charListLe, h]
      · rcases charListLe_total xs ys with ih | ih
        · left; simp [charListLe, h, ih]
        · right; simp [charListLe, h.symm, ih]
      · right; simp [charListLe, h]

/-- `charListLe` is antisymmetric. -/
theorem charListLe_antisymm : ∀ a b : List Char,
    charListLe a b = true → charListLe b a = true → a = b
  | [], [], _, _ => rfl
  | [], _ :: _, _, h => by simp [charListLe] at h
  | _ :: _, [], h, _ => by simp [charListLe] at h
  | x :: xs, y :: ys, h₁, h₂ => by
      simp only [charListLe, Bool.or_eq_true, Bool.and_eq_true, decide_eq_true_eq,
        beq_iff_eq] at h₁ h₂
      rcases h₁ with h₁ | ⟨hxy, h₁⟩
      · rcases h₂ with h₂ | ⟨hyx, h₂⟩
        · omega
        · omega
      · rcases h₂ with h₂ | ⟨hyx, h₂⟩
        · omega
        · have hc : x = y := Char.ext (UInt32.toNat.inj hxy)
          rw [hc, charListLe_antisymm xs ys h₁ h₂]

/-- `charListLe` is transitive. -/
theorem charListLe_trans : ∀ a b c : List Char,
    charListLe a b = true → charListLe b c = true → charListLe a c = true
  | [], _, _, _, _ => rfl
  | _ :: _, [], _, h, _ => by simp [charListLe] at h
  | _ :: _, _ :: _, [], _, h => by simp [charListLe] at h
  | x :: xs, y :: ys, z :: zs, h₁, h₂ => by
      simp only [charListLe, Bool.or_eq_true, Bool.and_eq_true, decide_eq_true_eq,
        beq_iff_eq] at h₁ h₂ ⊢
      rcases h₁ with h₁ | ⟨hxy, h₁⟩
      · rcases h₂ with h₂ | ⟨hyz, h₂⟩
        · exact Or.inl (by omega)
        · exact Or.inl (by omega)
      · rcases h₂ with h₂ | ⟨hyz, h₂⟩
        · exact Or.inl (by omega)
        · exact Or.inr ⟨by omega, charListLe_trans xs ys zs h₁ h₂⟩

/-- `strLeB` is antisymmetric. -/
theorem strLeB_antisymm (s t : String) (h₁ : strLeB s t = true)
    (h₂ : strLeB t s = true) : s = t := by
  have hd := charListLe_antisymm s.data t.data h₁ h₂
  cases s; cases t
  simp only at hd
  rw [hd]

instance : IsTotal (String × JValue) keyLE :=
  ⟨fun p q => charListLe_total p.1.data q.1.data⟩

instance : IsTrans (String × JValue) keyLE :=
  ⟨fun p q r => charListLe_trans p.1.data q.1.data r.1.data⟩

/-- The strict key order: `keyLE` together with distinct keys. -/
def keyLT (p q : String × JValue) : Prop := keyLE p q ∧ p.1 ≠ q.1

instance : IsAntisymm (String × JValue) keyLT :=
  ⟨fun p q h₁ h₂ => absurd (strLeB_antisymm p.1 q.1 h₁.1 h₂.1) h₁.2⟩

/-- Key projections are untouched by the path-normalisation pass. -/
theorem canonicalizeMap_keys (resolve : String → String) (args : Args) :
    (canonicalizeMap resolve args).map Prod.fst = args.map Prod.fst := by
  unfold canonicalizeMap
  rw [List.map_map]
  apply List.map_congr_left
  intro p _
  simp only [Function.comp_apply]
  split
  · split <;> rfl
  · rfl

/-- Two permuted argument lists with pairwise-distinct keys sort to the same
list under the `sort_keys` order. -/
theorem insertionSort_eq_of_perm (l l' : List (String × JValue))
    (hp : l.Perm l') (hnd : (l.map Prod.fst).Nodup) :
    List.insertionSort keyLE l = List.insertionSort keyLE l' := by
  have hsl : (List.insertionSort keyLE l).Perm l := List.perm_insertionSort keyLE l
  have hsl' : (List.insertionSort keyLE l').Perm l' := List.perm_insertionSort keyLE l'
  have hperm : (List.insertionSort keyLE l).Perm (List.insertionSort keyLE l') :=
    (hsl.trans hp).trans hsl'.symm
  have hndl : ((List.insertionSort keyLE l).map Prod.fst).Nodup :=
    ((hsl.map Prod.fst).nodup_iff).mpr hnd
  have hndl' : ((List.insertionSort keyLE l').map Prod.fst).Nodup :=
    ((hperm.map Prod.fst).nodup_iff).mp hndl
  have hstrict : ∀ (m : List (String × JValue)), List.Sorted keyLE m →
      ((m.map Prod.fst).Nodup) → List.Sorted keyLT m := by
    intro m hs hn
    have hne : m.Pairwise (fun p q : String × JValue => p.1 ≠ q.1) :=
      (List.pairwise_map).mp hn
    exact (hs.and hne)
  exact List.eq_of_perm_of_sorted hperm
    (hstrict _ (List.sorted_insertionSort keyLE l) hndl)
    (hstrict _ (List.sorted_insertionSort keyLE l') hndl')

/-- `hex32` renders exactly 8 characters. -/
theorem hex32_data_length (n : Nat) : (hex32 n).data.length = 8 := by
  simp [hex32]

/-- String concatenation concatenates the character lists. -/
theorem strApp_data (s t : String) : (s ++ t).data = s.data ++ t.data := rfl

/-- A SHA-1 hex digest has 40 characters. -/
theorem sha1Hex_data_length (msg : List Nat) : (sha1Hex msg).data.length = 40 := by
  unfold sha1Hex
  simp only [strApp_data, List.length_append, hex32_data_length]

/-- The dict rendering step of `jsonRender`. -/
theorem jsonRender_dict (fuel : Nat) (m : List (String × JValue)) :
    jsonRender (fuel + 1) (.jdict m) =
      "\x7b" ++ String.intercalate ", "
        ((m.insertionSort keyLE).map fun p => jsonQuote p.1 ++ ": " ++ jsonRender fuel p.2) ++
      "\x7d" := rfl

/-- Serialisation only sees the mapping through its key-sorted form. -/
theorem jsonDumpsSorted_eq_of_sort_eq (m m' : Args)
    (h : List.insertionSort keyLE m = List.insertionSort keyLE m') :
    jsonDumpsSorted m = jsonDumpsSorted m' := by
  unfold jsonDumpsSorted
  show jsonRender (999 + 1) (.jdict m) = jsonRender (999 + 1) (.jdict m')
  rw [jsonRender_dict, jsonRender_dict, h]

/-- C9: `canonicalize_args` is invariant under (1) reordering of keys, for
mappings with pairwise-distinct keys; (2) respelling a `dir`/`path`/`file`
string value to anything that resolves to the same absolute path; (3) any
change of values that leaves the canonical serialized form equal; and (4)
always produces `<action>_<digest>` with an 8-character digest. -/
theorem C9_theorem :
    (∀ (resolve : String → String) (action : String) (args args' : Args),
      args.Perm args' → (args.map Prod.fst).Nodup →
      canonicalize_args resolve action args = canonicalize_args resolve action args') ∧
    (∀ (resolve : String → String) (action k s s' : String) (pre post : Args),
      (k = "dir" ∨ k = "path" ∨ k = "file") → resolve s = resolve s' →
      canonicalize_args resolve action (pre ++ (k, .jstr s) :: post) =
        canonicalize_args resolve action (pre ++ (k, .jstr s') :: post)) ∧
    (∀ (resolve : String → String) (action : String) (args args' : Args),
      jsonDumpsSorted (canonicalizeMap resolve args) =
        jsonDumpsSorted (canonicalizeMap resolve args') →
      canonicalize_args resolve action args = canonicalize_args resolve action args') ∧
    (∀ (resolve : String → String) (action : String) (args : Args),
      ∃ d, canonicalize_args resolve action args = action ++ "_" ++ d ∧
        d.length = 8) := by
  have part3 : ∀ (resolve : String → String) (action : String) (args args' : Args),
      jsonDumpsSorted (canonicalizeMap resolve args) =
        jsonDumpsSorted (canonicalizeMap resolve args') →
      canonicalize_args resolve action args = canonicalize_args resolve action args' := by
    intro resolve action args args' h
    unfold canonicalize_args
    rw [h]
  refine ⟨?_, ?_, part3, ?_⟩
  · intro resolve action args args' hp hnd
    apply part3
    apply jsonDumpsSorted_eq_of_sort_eq
    apply insertionSort_eq_of_perm
    · exact hp.map _
    · rw [canonicalizeMap_keys]
      exact hnd
  · intro resolve action k s s' pre post hk hres
    apply part3
    have hcm : canonicalizeMap resolve (pre ++ (k, .jstr s) :: post) =
        canonicalizeMap resolve (pre ++ (k, .jstr s') :: post) := by
      unfold canonicalizeMap
      rcases hk with rfl | rfl | rfl <;> simp [hres]
    rw [hcm]
  · intro resolve action args
    refine ⟨_, rfl, ?_⟩
    show (String.mk ((sha1Hex _).data.take 8)).length = 8
    have hlen : ∀ l : List Char, (String.mk l).length = l.length := fun _ => rfl
    rw [hlen, List.length_take, sha1Hex_data_length]
    decide

/-- C9, witness: key order does not matter, `~`-spelled and resolved paths
hash alike (under a resolver sending both to the same absolute path), and
the key has the `<action>_<8-hex>` shape. -/
theorem C9_witness :
    (canonicalize_args id "count_files" [("limit", .jint 0), ("dir", .jstr "/tmp/a")] =
      canonicalize_args id "count_files" [("dir", .jstr "/tmp/a"), ("limit", .jint 0)]) ∧
    (canonicalize_args (fun _ => "/home/u/Desktop") "count_files"
        [("dir", .jstr "~/Desktop")] =
      canonicalize_args (fun _ => "/home/u/Desktop") "count_files"
        [("dir", .jstr "/home/u/Desktop")]) ∧
    (∃ d, canonicalize_args id "count_files" [("limit", .jint 0)] =
      "count_files" ++ "_" ++ d ∧ d.length = 8) :=
  ⟨C9_theorem.1 id "count_files" _ _ (List.Perm.swap _ _ _) (by decide),
   C9_theorem.2.1 (fun _ => "/home/u/Desktop") "count_files" "dir"
     "~/Desktop" "/home/u/Desktop" [] [] (Or.inl rfl) rfl,
   C9_theorem.2.2.2 id "count_files" [("limit", .jint 0)]⟩

/-- C6, witness: an `ok` entry resets the counter; three `no_progress`
entries arm the switch; a continuing loop iteration leaves the switch
predicate false. -/
theorem C6_witness :
    (add_ledger_entry initSession
      { step := 1, action := "count_files", argsKey := "k", expected := "",
        status := "ok", obsSignature := "s" }).noProgressCount = 0 ∧
    (add_ledger_entry initSession
      { step := 1, action := "count_files", argsKey := "k", expected := "",
        status := "error", obsSignature := "s" }).noProgressCount =
      initSession.noProgressCount ∧
    should_switch_strategy (agent_step id ⟨[], []⟩ initSession "g" 1
      ⟨"frobnicate", .jdict [], ""⟩ false (.error (.exn "RuntimeError" "x")) []
      false (mkRat 1 2) (.ok .jnull)).state = false :=
  ⟨C6_theorem.1 initSession _ rfl,
   C6_theorem.2.1 initSession _ (by decide) (by decide),
   C6_theorem.2.2.2 id ⟨[], []⟩ initSession "g" 1 ⟨"frobnicate", .jdict [], ""⟩
     false (.error (.exn "RuntimeError" "x")) [] false (mkRat 1 2) (.ok .jnull)
     (by decide) (by decide)⟩
